import Mathlib

/-!
Verification model of the encrypted MTProto session layer
(`telethon/_impl/mtproto/mtp/encrypted.py`).

The Python session object is embedded as a pure state-passing model:
byte strings become `List Nat` (each entry one byte), the mutable
`Encrypted` object becomes a `Session` record threaded through the
operations, wall-clock reads become explicit rational `now` parameters,
and fallible code returns `Except Err`.  Python exceptions abandon the
call, so an operation that raises is modelled as returning `.error`
(the partially mutated state is unobservable because the session is
poisoned).  Unbounded recursion through gzip envelopes is modelled with
an explicit fuel parameter; exhausting it is one more fatal error.
-/

namespace Mtproto

abbrev Bytes := List Nat

/-! ### Little-endian codec primitives (struct.pack / struct.unpack) -/

def pack32 (v : Nat) : Bytes :=
  [v % 256, v / 256 % 256, v / 65536 % 256, v / 16777216 % 256]

def pack64 (v : Nat) : Bytes :=
  pack32 (v % 4294967296) ++ pack32 (v / 4294967296 % 4294967296)

/-- struct.pack with format `<i`: a signed 32-bit value, two's complement. -/
def packI32 (v : Int) : Bytes := pack32 ((v % 4294967296).toNat)

/-- struct.pack with format `<q`: a signed 64-bit value, two's complement. -/
def packI64 (v : Int) : Bytes := pack64 ((v % 18446744073709551616).toNat)

/-- struct.unpack_from with format `<I` (reads beyond the end are guarded
by explicit length checks at every call site, mirroring struct.error). -/
def readU32 (b : Bytes) (off : Nat) : Nat :=
  b.getD off 0 + 256 * b.getD (off + 1) 0 + 65536 * b.getD (off + 2) 0 +
    16777216 * b.getD (off + 3) 0

def readU64 (b : Bytes) (off : Nat) : Nat :=
  readU32 b off + 4294967296 * readU32 b (off + 4)

def toSigned (w : Nat) (v : Nat) : Int :=
  if v < 2 ^ (w - 1) then (v : Int) else (v : Int) - 2 ^ w

def readI32 (b : Bytes) (off : Nat) : Int := toSigned 32 (readU32 b off)

def readI64 (b : Bytes) (off : Nat) : Int := toSigned 64 (readU64 b off)

/-- Python `int(...)` applied to a real number truncates toward zero. -/
def pyTrunc (q : ℚ) : Int := Int.tdiv q.num (q.den : Int)

/-! ### Constants

`HEADER_LEN`, `CONTAINER_HEADER_LEN`, `NUM_FUTURE_SALTS` and
`SALT_USE_DELAY` are defined in the session module itself.  The
remaining constants live in the codec helper module `..utils`, which is
not part of the source tree. -/

def NUM_FUTURE_SALTS : Nat := 64

def SALT_USE_DELAY : Int := 60

def HEADER_LEN : Nat := 8 + 8

def CONTAINER_HEADER_LEN : Nat := (8 + 4 + 4) + (4 + 4)

/-- Modelled from the spec: per-message framing overhead, the
`(msg_id, seq_no, length)` prefix of 8 + 4 + 4 bytes written before each
inner message body (constant imported from the codec helpers). -/
def MESSAGE_SIZE_OVERHEAD : Nat := 8 + 4 + 4

/-- Modelled from the spec: maximum number of messages per container
(transport constant imported from the codec helpers). -/
def CONTAINER_MAX_LENGTH : Nat := 100

/-- Modelled from the spec: maximum serialized container size in bytes
(transport constant imported from the codec helpers). -/
def CONTAINER_MAX_SIZE : Nat := 1044456 - MESSAGE_SIZE_OVERHEAD

/-- Modelled from the spec: body size above which gzip is attempted
(constant imported from the codec helpers). -/
def DEFAULT_COMPRESSION_THRESHOLD : Nat := 512

/-! ### Constructor ids

Modelled from the spec: every TL-generated type exposes a 32-bit
`constructor_id()`; the generated modules are not part of the source
tree, so the ids are taken from the published MTProto schema.  The
claims depend only on these values being pairwise distinct. -/

def RPC_RESULT_ID : Nat := 0xf35c6d01
def RPC_ERROR_ID : Nat := 0x2144ca19
def RPC_ANSWER_UNKNOWN_ID : Nat := 0x5e2ad36e
def RPC_ANSWER_DROPPED_RUNNING_ID : Nat := 0xcd78e586
def RPC_ANSWER_DROPPED_ID : Nat := 0xa43ad8b7
def GZIP_PACKED_ID : Nat := 0x3072cfa1
def MSGS_ACK_ID : Nat := 0x62d6b459
def BAD_MSG_NOTIFICATION_ID : Nat := 0xa7eff811
def BAD_SERVER_SALT_ID : Nat := 0xedab447b
def MSGS_STATE_REQ_ID : Nat := 0xda69fb52
def MSGS_STATE_INFO_ID : Nat := 0x04deb57d
def MSGS_ALL_INFO_ID : Nat := 0x8cc0d131
def MSG_DETAILED_INFO_ID : Nat := 0x276d3ec6
def MSG_NEW_DETAILED_INFO_ID : Nat := 0x809db6df
def MSG_RESEND_REQ_ID : Nat := 0x7d861a08
def FUTURE_SALT_ID : Nat := 0x0949d9dc
def FUTURE_SALTS_ID : Nat := 0xae500895
def PONG_ID : Nat := 0x347773c5
def DESTROY_SESSION_OK_ID : Nat := 0xe22045fc
def DESTROY_SESSION_NONE_ID : Nat := 0x62d350c9
def NEW_SESSION_CREATED_ID : Nat := 0x9ec20908
def MSG_CONTAINER_ID : Nat := 0x73f1f8dc
def HTTP_WAIT_ID : Nat := 0x9299359f
def VECTOR_ID : Nat := 0x1cb5c415
def GET_FUTURE_SALTS_ID : Nat := 0xb921bd04

def UPDATES_ID : Nat := 0x74ae4240
def UPDATES_COMBINED_ID : Nat := 0x725b04c3
def UPDATE_SHORT_ID : Nat := 0x78d4dec1
def UPDATE_SHORT_CHAT_MESSAGE_ID : Nat := 0x4d6deea5
def UPDATE_SHORT_MESSAGE_ID : Nat := 0x313bc7f8
def UPDATE_SHORT_SENT_MESSAGE_ID : Nat := 0x9015e101
def UPDATES_TOO_LONG_ID : Nat := 0xe317af7e

/-- The `UPDATE_IDS` classification set from the session module. -/
def UPDATE_IDS : List Nat :=
  [UPDATES_ID, UPDATES_COMBINED_ID, UPDATE_SHORT_ID,
   UPDATE_SHORT_CHAT_MESSAGE_ID, UPDATE_SHORT_MESSAGE_ID,
   UPDATE_SHORT_SENT_MESSAGE_ID, UPDATES_TOO_LONG_ID]

/-! ### Data model -/

structure FutureSalt where
  validSince : Int
  validUntil : Int
  salt : Int
deriving DecidableEq

/-- An entry of `_rpc_results`: either a raw result body, or a
`ValueError` raised for a bad-msg notification.  (The source also has
an `RpcError` arm inside `_handle_rpc_result`; that handler faults on
its first line, so the arm is unreachable, see `handleRpcResult`.) -/
inductive RpcAnswer where
  | payload (b : Bytes)
  | badMsg (errorCode : Int)
deriving DecidableEq

/-- The mutable state of the `Encrypted` session object. -/
structure Session where
  timeOffset : Int
  salts : List FutureSalt
  startSaltTime : Option (Int × Int)
  clientId : Int
  sequence : Int
  lastMsgId : Int
  pendingAck : List Int
  compressionThreshold : Option Nat
  rpcResults : List (Int × RpcAnswer)
  updates : List Bytes
  buffer : Bytes
  msgCount : Nat
deriving DecidableEq

/-- `Encrypted.__init__`.  `client_id` comes from `os.urandom`, an
external entropy source, so it is a parameter.  Python `x or 0` yields
0 both for `None` and for 0, i.e. `Option.getD _ 0`. -/
def initSession (clientId : Int) (timeOffset : Option Int) (firstSalt : Option Int)
    (compressionThreshold : Option Nat) : Session where
  timeOffset := timeOffset.getD 0
  salts := [⟨0, 0x7FFFFFFF, firstSalt.getD 0⟩]
  startSaltTime := none
  clientId := clientId
  sequence := 0
  lastMsgId := 0
  pendingAck := []
  compressionThreshold := compressionThreshold
  rpcResults := []
  updates := []
  buffer := []
  msgCount := 0

structure Message where
  msgId : Int
  seqno : Int
  bytes : Int
  body : Bytes
deriving DecidableEq

structure Deserialization where
  rpcResults : List (Int × RpcAnswer)
  updates : List Bytes
deriving DecidableEq

/-! ### MsgId and sequence generators -/

/-- `int((now + time_offset) * 0x100000000)`: the product is modelled
exactly over ℚ and `int(...)` truncates toward zero.  `(now + offset) *
4294967296` equals `(now.num + offset * now.den) * 4294967296 / now.den`
as a rational, and truncated division is invariant under the common
factors that `Rat` normalization would cancel, so the candidate is
written directly over the numerator and denominator (Lean's `Rat`
arithmetic does not reduce inside the kernel). -/
def msgIdCandidate (now : ℚ) (offset : Int) : Int :=
  Int.tdiv ((now.num + offset * (now.den : Int)) * 4294967296) (now.den : Int)

/-- `_get_new_msg_id`. -/
def getNewMsgId (now : ℚ) (s : Session) : Int × Session :=
  let newMsgId := msgIdCandidate now s.timeOffset
  let newMsgId := if s.lastMsgId ≥ newMsgId then s.lastMsgId + 4 else newMsgId
  (newMsgId, { s with lastMsgId := newMsgId })

/-- `_get_seq_no`. -/
def getSeqNo (contentRelated : Bool) (s : Session) : Int × Session :=
  if contentRelated then
    (s.sequence + 2 - 1, { s with sequence := s.sequence + 2 })
  else
    (s.sequence, s)

/-- `_correct_time_offset`. -/
def correctTimeOffset (now : ℚ) (msgId : Int) (s : Session) : Session :=
  { s with timeOffset := Int.fdiv msgId 4294967296 - pyTrunc now }

/-- `_serialize_msg`: append `(msg_id, seq_no, len, body)` to the buffer
and bump the staged-message count. -/
def serializeMsg (now : ℚ) (body : Bytes) (contentRelated : Bool) (s : Session) :
    Int × Session :=
  let r1 := getNewMsgId now s
  let r2 := getSeqNo contentRelated r1.2
  (r1.1, { r2.2 with
      buffer := r2.2.buffer ++ packI64 r1.1 ++ packI32 r2.1 ++
        packI32 (body.length : Int) ++ body,
      msgCount := r2.2.msgCount + 1 })

/-! ### TL serialization of the values the session itself emits

Modelled from the spec: the TL-generated constructors expose a
serialization to bytes; the generated modules are not in the source
tree, so the standard TL layouts are used (constructor id, then fields,
`bytes` fields with a length prefix padded to 4). -/

def tlPad (n : Nat) : Nat := (4 - n % 4) % 4

def tlBytesEnc (b : Bytes) : Bytes :=
  if b.length < 254 then
    ([b.length] ++ b) ++ List.replicate (tlPad (1 + b.length)) 0
  else
    ([254, b.length % 256, b.length / 256 % 256, b.length / 65536 % 256] ++ b) ++
      List.replicate (tlPad b.length) 0

def tlBytesDec (b : Bytes) : Option Bytes :=
  match b with
  | [] => none
  | l :: rest =>
    if l < 254 then
      if rest.length < l + tlPad (1 + l) then none else some (rest.take l)
    else if l = 254 then
      let n := rest.getD 0 0 + 256 * rest.getD 1 0 + 65536 * rest.getD 2 0
      if rest.length < 3 + n + tlPad n then none else some ((rest.drop 3).take n)
    else none

/-- `bytes(MsgsAck(msg_ids=...))`: constructor id, vector id, count, ids. -/
def msgsAckBytes (ids : List Int) : Bytes :=
  pack32 MSGS_ACK_ID ++ pack32 VECTOR_ID ++ pack32 ids.length ++
    (ids.map packI64).flatten

/-- `bytes(get_future_salts(num=NUM_FUTURE_SALTS))`. -/
def getFutureSaltsBytes : Bytes :=
  pack32 GET_FUTURE_SALTS_ID ++ packI32 (NUM_FUTURE_SALTS : Int)

/-- `bytes(GzipPacked(packed_data=...))`. -/
def gzipPackedBytes (packedData : Bytes) : Bytes :=
  pack32 GZIP_PACKED_ID ++ tlBytesEnc packedData

/-! ### Outbound path -/

/-- The salt written into the plaintext header:
`self._salts[-1].salt if self._salts else 0`. -/
def currentSalt (s : Session) : Int :=
  match s.salts.getLast? with
  | some fs => fs.salt
  | none => 0

/-- `_finalize_plain`.  The two slice assignments of the source replace
the first `HEADER_LEN` bytes with the `(salt, client_id)` header and,
for containers, the next `CONTAINER_HEADER_LEN` bytes with the fresh
container header; the replaced regions are written here as explicit
appends in front of the surviving tail of the buffer. -/
def finalizePlain (now : ℚ) (s : Session) : Bytes × Session :=
  if s.msgCount = 0 then ([], s)
  else
    let base := if s.msgCount = 1 then s.buffer.drop CONTAINER_HEADER_LEN else s.buffer
    let tail := base.drop HEADER_LEN
    if s.msgCount = 1 then
      (packI64 (currentSalt s) ++ packI64 s.clientId ++ tail,
       { s with msgCount := 0, buffer := [] })
    else
      let r1 := getNewMsgId now s
      let r2 := getSeqNo false r1.2
      let contHeader := packI64 r1.1 ++ packI32 r2.1 ++
        packI32 ((HEADER_LEN : Int) + tail.length - HEADER_LEN - CONTAINER_HEADER_LEN + 8) ++
        pack32 MSG_CONTAINER_ID ++ packI32 (s.msgCount : Int)
      (packI64 (currentSalt s) ++ packI64 s.clientId ++ contHeader ++
         tail.drop CONTAINER_HEADER_LEN,
       { r2.2 with msgCount := 0, buffer := [] })

/-- The optional gzip compression step of `push`: wrap the request when
the threshold is reached and the wrapped form is strictly shorter.
`gzipCompress` is the external `gzip_compress` helper. -/
def compressedBody (gzipCompress : Bytes → Bytes) (threshold : Option Nat)
    (request : Bytes) : Bytes :=
  match threshold with
  | none => request
  | some t =>
    if t ≤ request.length then
      let compressed := gzipPackedBytes (gzipCompress request)
      if compressed.length < request.length then compressed else request
    else request

/-- The buffer after the reservation step at the top of `push`. -/
def reserveBuffer (b : Bytes) : Bytes :=
  if b.isEmpty then List.replicate (HEADER_LEN + CONTAINER_HEADER_LEN) 0 else b

/-- The pending-acknowledgement flush at the top of `push`: serialize a
non-content-related `msgs_ack` bearing the pending ids, then clear the
list. -/
def pushAck (now : ℚ) (s : Session) : Session :=
  if s.pendingAck.isEmpty then s
  else { (serializeMsg now (msgsAckBytes s.pendingAck) false s).2 with pendingAck := [] }

/-- The salt-rotation step of `push`: when at least two salts are
stored and the server-time equivalent of now has passed the
second-oldest's `valid_since + SALT_USE_DELAY`, pop the stalest salt,
and once a single salt remains stage a `get_future_salts` request. -/
def pushSaltRotation (now : ℚ) (s : Session) : Session :=
  match s.startSaltTime with
  | none => s
  | some st =>
    if 2 ≤ s.salts.length then
      let salt := s.salts.getD (s.salts.length - 2) ⟨0, 0, 0⟩
      let nowServer := st.1 + (st.2 - pyTrunc now)
      if nowServer ≥ salt.validSince + SALT_USE_DELAY then
        let s1 := { s with salts := s.salts.dropLast }
        if s1.salts.length = 1 then
          (serializeMsg now getFutureSaltsBytes true s1).2
        else s1
      else s
    else s

/-- `push`.  The two `assert` statements of the source
(`len(request) % 4 == 0` and
`len(request) + MESSAGE_SIZE_OVERHEAD <= CONTAINER_MAX_SIZE`) are
preconditions on the caller and appear as hypotheses of the theorems
that need them. -/
def push (gzipCompress : Bytes → Bytes) (now : ℚ) (request : Bytes) (s : Session) :
    Option Int × Session :=
  let s := pushSaltRotation now (pushAck now { s with buffer := reserveBuffer s.buffer })
  if s.msgCount = CONTAINER_MAX_LENGTH then (none, s)
  else
    let body := compressedBody gzipCompress s.compressionThreshold request
    if CONTAINER_MAX_SIZE ≤ s.buffer.length + body.length + MESSAGE_SIZE_OVERHEAD then
      (none, s)
    else
      let r := serializeMsg now body true s
      (some r.1, r.2)

/-! ### Inbound path -/

/-- Fatal outcomes of `deserialize`.  `parseError` covers struct.error
and `from_bytes` failures, `assertFailed` covers failing `assert`
statements, `outOfFuel` models exhausting the recursion budget. -/
inductive Err where
  | wrongSession
  | parseError
  | assertFailed
  | outOfFuel
deriving DecidableEq

/-- Modelled from the spec: `message_requires_ack` from the codec
helpers (not in the source tree) — content-related messages, i.e. those
with an odd `seq_no`, require acknowledgement. -/
def messageRequiresAck (m : Message) : Bool := m.seqno % 2 = 1

/-- Modelled from the spec: the generated `Message.from_bytes` reading
the wire layout `(msg_id: i64, seq_no: i32, length: i32, body)`. -/
def parseMessage (b : Bytes) : Option Message :=
  if b.length < 16 then none
  else
    let len := readI32 b 12
    if len < 0 ∨ (b.length : Int) < 16 + len then none
    else some ⟨readI64 b 0, readI32 b 8, len, (b.drop 16).take len.toNat⟩

/-- Modelled from the spec: `GzipPacked.from_bytes`, yielding the
`packed_data` field. -/
def parseGzipPacked (b : Bytes) : Option Bytes :=
  if b.length < 4 then none else tlBytesDec (b.drop 4)

/-- A `msg_ids:Vector<long>` body check shared by several service
parsers: constructor id, vector id, count, then `count` ids. -/
def vectorLongOk (b : Bytes) : Bool :=
  decide (12 ≤ b.length) && decide (readU32 b 4 = VECTOR_ID) &&
    decide (12 + 8 * readU32 b 8 ≤ b.length)

/-- `_handle_rpc_result`.  Its first line is
`assert isinstance(message.body, RpcResult)`; `message.body` is the raw
byte string of the inner message (the dispatcher unpacks the
constructor id from it, the gzip handler builds messages whose body is
the inflated byte string, and `_updates` is typed `List[bytes]`), so it
is never an instance of the `RpcResult` class and the assertion always
fails.  The remainder of the handler — the `rpc_error` /
`rpc_answer_*` / `gzip_packed` arms and the queue appends — is
unreachable. -/
def handleRpcResult (_m : Message) (_s : Session) : Except Err Session :=
  .error .assertFailed

/-- `_store_own_updates` (only called from the unreachable tail of
`_handle_rpc_result`). -/
def storeOwnUpdates (body : Bytes) (s : Session) : Session :=
  if readU32 body 0 ∈ UPDATE_IDS then { s with updates := s.updates ++ [body] } else s

/-- `_handle_ack`: parse `MsgsAck` for validity, no state change. -/
def handleAck (m : Message) (s : Session) : Except Err Session :=
  if vectorLongOk m.body then .ok s else .error .parseError

/-- `_handle_bad_notification`.  Layouts:
`bad_server_salt` is `(ctor, bad_msg_id: i64, bad_msg_seqno: i32,
error_code: i32, new_server_salt: i64)`; `bad_msg_notification` is the
same without the salt. -/
def handleBadNotification (gzipCompress : Bytes → Bytes) (now : ℚ)
    (m : Message) (s : Session) : Except Err Session :=
  if readU32 m.body 0 = BAD_SERVER_SALT_ID then
    if m.body.length < 28 then .error .parseError
    else
      let s := { s with
        rpcResults := s.rpcResults ++ [(readI64 m.body 4, .badMsg (readI32 m.body 16))],
        salts := [⟨0, 0x7FFFFFFF, readI64 m.body 20⟩] }
      .ok (push gzipCompress now getFutureSaltsBytes s).2
  else if readU32 m.body 0 = BAD_MSG_NOTIFICATION_ID then
    if m.body.length < 20 then .error .parseError
    else
      let errorCode := readI32 m.body 16
      let s := { s with
        rpcResults := s.rpcResults ++ [(readI64 m.body 4, .badMsg errorCode)] }
      if errorCode = 16 ∨ errorCode = 17 then .ok (correctTimeOffset now m.msgId s)
      else if errorCode = 32 then .ok { s with sequence := s.sequence + 64 }
      else if errorCode = 33 then .ok { s with sequence := s.sequence - 16 }
      else .ok s
  else .error .parseError

/-- `_handle_state_req`: parse `MsgsStateReq` for validity. -/
def handleStateReq (m : Message) (s : Session) : Except Err Session :=
  if vectorLongOk m.body then .ok s else .error .parseError

/-- `_handle_state_info`: parse `MsgsStateInfo`
`(ctor, req_msg_id: i64, info: bytes)` for validity. -/
def handleStateInfo (m : Message) (s : Session) : Except Err Session :=
  if 12 ≤ m.body.length ∧ (tlBytesDec (m.body.drop 12)).isSome then .ok s
  else .error .parseError

/-- `_handle_msg_all`: parse `MsgsAllInfo`
`(ctor, msg_ids: Vector long, info: bytes)` for validity. -/
def handleMsgAll (m : Message) (s : Session) : Except Err Session :=
  if vectorLongOk m.body ∧
      (tlBytesDec (m.body.drop (12 + 8 * readU32 m.body 8))).isSome then .ok s
  else .error .parseError

/-- `_handle_detailed_info`: append `answer_msg_id` to `pending_ack`.
`msg_detailed_info` is `(ctor, msg_id: i64, answer_msg_id: i64,
bytes: i32, status: i32)`; `msg_new_detailed_info` drops the leading
`msg_id`. -/
def handleDetailedInfo (m : Message) (s : Session) : Except Err Session :=
  if readU32 m.body 0 = MSG_DETAILED_INFO_ID then
    if m.body.length < 28 then .error .parseError
    else .ok { s with pendingAck := s.pendingAck ++ [readI64 m.body 12] }
  else if readU32 m.body 0 = MSG_NEW_DETAILED_INFO_ID then
    if m.body.length < 20 then .error .parseError
    else .ok { s with pendingAck := s.pendingAck ++ [readI64 m.body 4] }
  else .error .parseError

/-- `_handle_msg_resend`: parse `MsgResendReq` for validity. -/
def handleMsgResend (m : Message) (s : Session) : Except Err Session :=
  if vectorLongOk m.body then .ok s else .error .parseError

/-- The salt vector of `future_salts`: `count` bare
`(valid_since: i32, valid_until: i32, salt: i64)` triples. -/
def parseFutureSaltList : Nat → Bytes → Option (List FutureSalt)
  | 0, _ => some []
  | n + 1, b =>
    if b.length < 16 then none
    else
      match parseFutureSaltList n (b.drop 16) with
      | none => none
      | some rest => some (⟨readI32 b 0, readI32 b 4, readI64 b 8⟩ :: rest)

/-- Stable insertion into a list sorted by descending `valid_since`
(`list.sort(key=lambda salt: -salt.valid_since)`). -/
def insertSaltDesc (x : FutureSalt) : List FutureSalt → List FutureSalt
  | [] => [x]
  | y :: ys =>
    if y.validSince < x.validSince then x :: y :: ys else y :: insertSaltDesc x ys

def sortSaltsDesc : List FutureSalt → List FutureSalt
  | [] => []
  | x :: xs => insertSaltDesc x (sortSaltsDesc xs)

/-- `_handle_future_salts`: emit `(req_msg_id, body)`, record
`start_salt_time`, replace the store sorted descending.  Layout:
`(ctor, req_msg_id: i64, now: i32, count: i32, salts...)`. -/
def handleFutureSalts (now : ℚ) (m : Message) (s : Session) : Except Err Session :=
  if m.body.length < 20 then .error .parseError
  else
    match parseFutureSaltList (readU32 m.body 16) (m.body.drop 20) with
    | none => .error .parseError
    | some salts =>
      .ok { s with
        rpcResults := s.rpcResults ++ [(readI64 m.body 4, .payload m.body)],
        startSaltTime := some (readI32 m.body 12, pyTrunc now),
        salts := sortSaltsDesc salts }

/-- `_handle_future_salt`: parse, then `assert False`. -/
def handleFutureSalt (m : Message) (_s : Session) : Except Err Session :=
  if m.body.length < 20 then .error .parseError else .error .assertFailed

/-- `_handle_pong`: emit `(pong.msg_id, body)`.  Layout:
`(ctor, msg_id: i64, ping_id: i64)`. -/
def handlePong (m : Message) (s : Session) : Except Err Session :=
  if m.body.length < 20 then .error .parseError
  else .ok { s with rpcResults := s.rpcResults ++ [(readI64 m.body 4, .payload m.body)] }

/-- `_handle_destroy_session`: parse (`ctor, session_id: i64`), no
state change. -/
def handleDestroySession (m : Message) (s : Session) : Except Err Session :=
  if m.body.length < 12 then .error .parseError else .ok s

/-- `_handle_new_session_created`: reset the salt store to the supplied
server salt.  Layout: `(ctor, first_msg_id: i64, unique_id: i64,
server_salt: i64)`. -/
def handleNewSessionCreated (m : Message) (s : Session) : Except Err Session :=
  if m.body.length < 28 then .error .parseError
  else .ok { s with salts := [⟨0, 0x7FFFFFFF, readI64 m.body 20⟩] }

/-- `_handle_http_wait`: parse (`ctor` plus three i32 fields), no state
change. -/
def handleHttpWait (m : Message) (s : Session) : Except Err Session :=
  if m.body.length < 16 then .error .parseError else .ok s

/-- The head of `_process_message`: record the inbound id in
`pending_ack` when the message requires acknowledgement. -/
def ackStep (m : Message) (s : Session) : Session :=
  if messageRequiresAck m then { s with pendingAck := s.pendingAck ++ [m.msgId] } else s

/-- The dispatch table of `_process_message`: route on the leading
constructor id of the body.

The source's handler table registers exactly the constructors matched
below; `_handle_container` is defined in the source but never entered
into `self._handlers`, so an inbound `msg_container` falls through to
the default `_handle_update` arm like any other unknown constructor,
and the only recursive dispatch is through `gzip_packed` (`recurse`,
instantiated with the fueled `processMessage`; Python's stack would
overflow instead).  `gzipDecompress` is the external `gzip_decompress`
helper, `none` modelling a decompression failure. -/
def dispatchCore (gzipCompress : Bytes → Bytes) (gzipDecompress : Bytes → Option Bytes)
    (now : ℚ) (recurse : Message → Session → Except Err Session)
    (m : Message) (s : Session) : Except Err Session :=
  if m.body.length < 4 then .error .parseError
  else
    let ctor := readU32 m.body 0
    if ctor = RPC_RESULT_ID then handleRpcResult m s
    else if ctor = MSGS_ACK_ID then handleAck m s
    else if ctor = BAD_MSG_NOTIFICATION_ID then handleBadNotification gzipCompress now m s
    else if ctor = BAD_SERVER_SALT_ID then handleBadNotification gzipCompress now m s
    else if ctor = MSGS_STATE_REQ_ID then handleStateReq m s
    else if ctor = MSGS_STATE_INFO_ID then handleStateInfo m s
    else if ctor = MSGS_ALL_INFO_ID then handleMsgAll m s
    else if ctor = MSG_DETAILED_INFO_ID then handleDetailedInfo m s
    else if ctor = MSG_NEW_DETAILED_INFO_ID then handleDetailedInfo m s
    else if ctor = MSG_RESEND_REQ_ID then handleMsgResend m s
    else if ctor = FUTURE_SALT_ID then handleFutureSalt m s
    else if ctor = FUTURE_SALTS_ID then handleFutureSalts now m s
    else if ctor = PONG_ID then handlePong m s
    else if ctor = DESTROY_SESSION_OK_ID then handleDestroySession m s
    else if ctor = DESTROY_SESSION_NONE_ID then handleDestroySession m s
    else if ctor = NEW_SESSION_CREATED_ID then handleNewSessionCreated m s
    else if ctor = GZIP_PACKED_ID then
      match parseGzipPacked m.body with
      | none => .error .parseError
      | some packed =>
        match gzipDecompress packed with
        | none => .error .parseError
        | some inner =>
          recurse ⟨m.msgId, m.seqno, (inner.length : Int), inner⟩ s
    else if ctor = HTTP_WAIT_ID then handleHttpWait m s
    else .ok { s with updates := s.updates ++ [m.body] }

def dispatch (gzipCompress : Bytes → Bytes) (gzipDecompress : Bytes → Option Bytes)
    (now : ℚ) (recurse : Message → Session → Except Err Session)
    (m : Message) (s : Session) : Except Err Session :=
  dispatchCore gzipCompress gzipDecompress now recurse m (ackStep m s)

def processMessage (gzipCompress : Bytes → Bytes) (gzipDecompress : Bytes → Option Bytes)
    (now : ℚ) : Nat → Message → Session → Except Err Session
  | 0, _, _ => .error .outOfFuel
  | fuel + 1, m, s =>
    dispatch gzipCompress gzipDecompress now
      (processMessage gzipCompress gzipDecompress now fuel) m s

/-- `deserialize`, applied to the decrypted plaintext.
`check_message_buffer` and `decrypt_data_v2` are external collaborators
acting before this point; a failed decryption never reaches this code.
Reading the leading `(salt, client_id)` pair needs 16 bytes
(struct.error otherwise), the `client_id` must match the session's, and
the remainder is parsed as one `Message` and dispatched.  On success
the accumulated queues are returned and drained. -/
def deserializePlain (gzipCompress : Bytes → Bytes) (gzipDecompress : Bytes → Option Bytes)
    (now : ℚ) (fuel : Nat) (plaintext : Bytes) (s : Session) :
    Except Err (Session × Deserialization) :=
  if plaintext.length < 16 then .error .parseError
  else if readI64 plaintext 8 ≠ s.clientId then .error .wrongSession
  else
    match parseMessage (plaintext.drop 16) with
    | none => .error .parseError
    | some m =>
      match processMessage gzipCompress gzipDecompress now fuel m s with
      | .error e => .error e
      | .ok s1 =>
        .ok ({ s1 with rpcResults := [], updates := [] }, ⟨s1.rpcResults, s1.updates⟩)

/-! ### Reachable session states -/

/-- States reachable from a freshly constructed session by any
interleaving of the three entry points (with arbitrary times, inputs
and external helpers).  A failed `deserialize` poisons the session, so
only successful calls extend a run. -/
inductive Reachable : Session → Prop
  | init (clientId timeOffset firstSalt compressionThreshold) :
      Reachable (initSession clientId timeOffset firstSalt compressionThreshold)
  | push (gz : Bytes → Bytes) (now : ℚ) (req : Bytes) {s : Session} :
      Reachable s → Reachable (push gz now req s).2
  | finalize (now : ℚ) {s : Session} :
      Reachable s → Reachable (finalizePlain now s).2
  | deserialize (gz : Bytes → Bytes) (gzd : Bytes → Option Bytes) (now : ℚ)
      (fuel : Nat) (plaintext : Bytes) {s s' : Session} {d : Deserialization} :
      Reachable s → deserializePlain gz gzd now fuel plaintext s = .ok (s', d) →
      Reachable s'

/-- States reachable from a freshly constructed session by `push` and
`finalize` calls alone. -/
inductive PFReach : Session → Prop
  | init (clientId timeOffset firstSalt compressionThreshold) :
      PFReach (initSession clientId timeOffset firstSalt compressionThreshold)
  | push (gz : Bytes → Bytes) (now : ℚ) (req : Bytes) {s : Session} :
      PFReach s → PFReach (push gz now req s).2
  | finalize (now : ℚ) {s : Session} :
      PFReach s → PFReach (finalizePlain now s).2

/-! ### How one dispatch step may evolve the session

`Extends s t` records what every handler guarantees: the result queues
only grow at the tail, and the parity of the sequence counter is
unchanged. -/

structure Extends (s t : Session) : Prop where
  rpc : ∃ l, t.rpcResults = s.rpcResults ++ l
  upd : ∃ l, t.updates = s.updates ++ l
  seqParity : t.sequence % 2 = s.sequence % 2

/-- The invariant maintained by push/finalize-only runs: no pending
acknowledgements, no salt-rotation clock, the staged count within the
container length cap, the buffer below the size cap, and a buffer that
is empty until reserved and holds at least the 40 reserved header bytes
otherwise. -/
def PFInv (s : Session) : Prop :=
  s.pendingAck = [] ∧ s.startSaltTime = none ∧
  s.msgCount ≤ CONTAINER_MAX_LENGTH ∧
  s.buffer.length < CONTAINER_MAX_SIZE ∧
  (s.buffer = [] ∨ 40 ≤ s.buffer.length) ∧
  (s.msgCount ≠ 0 → 40 ≤ s.buffer.length)

/-! ### Concrete instances used by the witnesses -/

/-- A sample fresh session: `client_id` 7, `time_offset` 0, first salt
3, compression disabled. -/
def exSession : Session := initSession 7 (some 0) (some 3) none

/-- A sample fresh session with the default compression threshold. -/
def exSessionC : Session :=
  initSession 7 (some 0) (some 3) (some DEFAULT_COMPRESSION_THRESHOLD)

/-- Stand-in for the external gzip compressor in concrete runs. -/
def exGzip : Bytes → Bytes := fun b => b

/-- Stand-in for the external gzip decompressor in concrete runs. -/
def exGunzip : Bytes → Option Bytes := fun b => some b

/-- An inbound message with an unregistered constructor and an odd
`seq_no` (so it requires acknowledgement): dispatches to the default
update arm. -/
def exUpdateMsgBytes : Bytes :=
  packI64 41 ++ packI32 1 ++ packI32 4 ++ pack32 0xdeadbeef

/-- Plaintext frame (salt 0, client id 7) around `exUpdateMsgBytes`. -/
def exUpdatePlain : Bytes := packI64 0 ++ packI64 7 ++ exUpdateMsgBytes

/-- Plaintext whose header carries client id 8, mismatching `exSession`. -/
def exWrongPlain : Bytes := packI64 0 ++ packI64 8 ++ exUpdateMsgBytes

/-- A `bad_msg_notification` body: bad_msg_id 77, seqno 0, error code 33. -/
def exBad33Body : Bytes :=
  pack32 BAD_MSG_NOTIFICATION_ID ++ packI64 77 ++ packI32 0 ++ packI32 33

/-- Plaintext framing `exBad33Body` as message 33 with an even seq_no. -/
def exBad33Plain : Bytes :=
  packI64 0 ++ packI64 7 ++ (packI64 33 ++ packI32 0 ++ packI32 20 ++ exBad33Body)

/-- The session after dispatching the code-33 notification on `exSession`. -/
def exC2S1 : Session :=
  ((deserializePlain exGzip exGunzip 0 5 exBad33Plain exSession).toOption.map
    Prod.fst).getD exSession

/-- The session after `exSession` deserializes `exUpdatePlain`: one id is
pending acknowledgement. -/
def exC3S1 : Session :=
  ((deserializePlain exGzip exGunzip 0 5 exUpdatePlain exSession).toOption.map
    Prod.fst).getD exSession

/-- One `push` on `exC3S1`. -/
def exC3Push : Option Int × Session := push exGzip 0 [1, 2, 3, 4] exC3S1

/-- The frame the next `finalize` emits. -/
def exC3Out : Bytes := (finalizePlain 0 exC3Push.2).1

/-- An `rpc_result` body whose inner constructor is `updates_too_long`. -/
def exRpcUpdateBody : Bytes :=
  pack32 RPC_RESULT_ID ++ packI64 10 ++ pack32 UPDATES_TOO_LONG_ID

def exRpcUpdateMsg : Message := ⟨51, 1, 16, exRpcUpdateBody⟩

/-- An `rpc_result` body whose inner payload is a `gzip_packed` wrapper
around an `updates_too_long` body. -/
def exRpcGzipBody : Bytes :=
  pack32 RPC_RESULT_ID ++ packI64 11 ++ pack32 GZIP_PACKED_ID ++
    tlBytesEnc (pack32 UPDATES_TOO_LONG_ID)

def exRpcGzipMsg : Message := ⟨52, 1, 24, exRpcGzipBody⟩

/-- A `bad_server_salt` body: bad_msg_id 99, seqno 0, error code 48, new
server salt 5555. -/
def exBadSaltBody : Bytes :=
  pack32 BAD_SERVER_SALT_ID ++ packI64 99 ++ packI32 0 ++ packI32 48 ++ packI64 5555

def exBadSaltMsg : Message := ⟨31, 0, 28, exBadSaltBody⟩

/-- A session at the container length cap with one pending
acknowledgement, for the capacity-refusal demonstration. -/
def exC10S : Session :=
  { exSession with pendingAck := [5], msgCount := 99, buffer := List.replicate 40 0 }

/-- A session whose staged message count sits at the container length
cap, with a non-fresh buffer and no pending acknowledgements: on it the
bad_server_salt handler's internal push is refused. -/
def exC7S : Session :=
  { exSession with msgCount := CONTAINER_MAX_LENGTH, buffer := List.replicate 40 0 }

/-- `exC7S` after dispatching `exBadSaltMsg`: the keyed error is
recorded and the salt store replaced, but the refused push leaves the
buffer and the staged message count untouched. -/
def exC7S1 : Session :=
  { exC7S with
    rpcResults := [(99, RpcAnswer.badMsg 48)],
    salts := [⟨0, 0x7FFFFFFF, 5555⟩] }

/-! ### Basic lemmas about the generators and the serializer -/

@[simp] theorem length_pack32 (v : Nat) : (pack32 v).length = 4 := rfl

@[simp] theorem length_pack64 (v : Nat) : (pack64 v).length = 8 := rfl

@[simp] theorem length_packI32 (v : Int) : (packI32 v).length = 4 := rfl

@[simp] theorem length_packI64 (v : Int) : (packI64 v).length = 8 := rfl

theorem getNewMsgId_gt (now : ℚ) (s : Session) :
    s.lastMsgId < (getNewMsgId now s).1 := by
  unfold getNewMsgId
  dsimp only
  split <;> omega

theorem getNewMsgId_snd (now : ℚ) (s : Session) :
    (getNewMsgId now s).2 = { s with lastMsgId := (getNewMsgId now s).1 } := rfl

theorem serializeMsg_fst (now : ℚ) (b : Bytes) (c : Bool) (s : Session) :
    (serializeMsg now b c s).1 = (getNewMsgId now s).1 := by
  cases c <;> rfl

theorem serializeMsg_rpcResults (now : ℚ) (b : Bytes) (c : Bool) (s : Session) :
    (serializeMsg now b c s).2.rpcResults = s.rpcResults := by
  cases c <;> rfl

theorem serializeMsg_updates (now : ℚ) (b : Bytes) (c : Bool) (s : Session) :
    (serializeMsg now b c s).2.updates = s.updates := by
  cases c <;> rfl

theorem serializeMsg_clientId (now : ℚ) (b : Bytes) (c : Bool) (s : Session) :
    (serializeMsg now b c s).2.clientId = s.clientId := by
  cases c <;> rfl

theorem serializeMsg_salts (now : ℚ) (b : Bytes) (c : Bool) (s : Session) :
    (serializeMsg now b c s).2.salts = s.salts := by
  cases c <;> rfl

theorem serializeMsg_startSaltTime (now : ℚ) (b : Bytes) (c : Bool) (s : Session) :
    (serializeMsg now b c s).2.startSaltTime = s.startSaltTime := by
  cases c <;> rfl

theorem serializeMsg_pendingAck (now : ℚ) (b : Bytes) (c : Bool) (s : Session) :
    (serializeMsg now b c s).2.pendingAck = s.pendingAck := by
  cases c <;> rfl

theorem serializeMsg_compressionThreshold (now : ℚ) (b : Bytes) (c : Bool) (s : Session) :
    (serializeMsg now b c s).2.compressionThreshold = s.compressionThreshold := by
  cases c <;> rfl

theorem serializeMsg_msgCount (now : ℚ) (b : Bytes) (c : Bool) (s : Session) :
    (serializeMsg now b c s).2.msgCount = s.msgCount + 1 := by
  cases c <;> rfl

theorem serializeMsg_sequence (now : ℚ) (b : Bytes) (c : Bool) (s : Session) :
    (serializeMsg now b c s).2.sequence = if c then s.sequence + 2 else s.sequence := by
  cases c <;> rfl

theorem serializeMsg_buffer (now : ℚ) (b : Bytes) (c : Bool) (s : Session) :
    (serializeMsg now b c s).2.buffer =
      s.buffer ++ packI64 (getNewMsgId now s).1 ++
        packI32 (if c then s.sequence + 2 - 1 else s.sequence) ++
        packI32 (b.length : Int) ++ b := by
  cases c <;> rfl

theorem serializeMsg_buffer_length (now : ℚ) (b : Bytes) (c : Bool) (s : Session) :
    (serializeMsg now b c s).2.buffer.length =
      s.buffer.length + MESSAGE_SIZE_OVERHEAD + b.length := by
  simp [serializeMsg_buffer, MESSAGE_SIZE_OVERHEAD]
  omega

/-- **C1.** MsgId monotonicity: the generator always returns a value
strictly above the stored `_last_msg_id`, stores what it returns, and
therefore two successive calls (with arbitrary clock readings) return
strictly increasing ids. -/
theorem msgId_monotone (now₁ now₂ : ℚ) (s : Session) :
    s.lastMsgId < (getNewMsgId now₁ s).1 ∧
    (getNewMsgId now₁ s).2.lastMsgId = (getNewMsgId now₁ s).1 ∧
    (getNewMsgId now₁ s).1 < (getNewMsgId now₂ (getNewMsgId now₁ s).2).1 := by
  refine ⟨getNewMsgId_gt now₁ s, rfl, ?_⟩
  have h := getNewMsgId_gt now₂ (getNewMsgId now₁ s).2
  rwa [getNewMsgId_snd] at h

/-! ### Frame lemmas for the steps of `push` -/

theorem pushAck_of_empty (now : ℚ) {s : Session} (h : s.pendingAck = []) :
    pushAck now s = s := by
  simp [pushAck, h]

theorem pushAck_rpcResults (now : ℚ) (s : Session) :
    (pushAck now s).rpcResults = s.rpcResults := by
  unfold pushAck; split
  · rfl
  · simp [serializeMsg_rpcResults]

theorem pushAck_updates (now : ℚ) (s : Session) :
    (pushAck now s).updates = s.updates := by
  unfold pushAck; split
  · rfl
  · simp [serializeMsg_updates]

theorem pushAck_clientId (now : ℚ) (s : Session) :
    (pushAck now s).clientId = s.clientId := by
  unfold pushAck; split
  · rfl
  · simp [serializeMsg_clientId]

theorem pushAck_salts (now : ℚ) (s : Session) :
    (pushAck now s).salts = s.salts := by
  unfold pushAck; split
  · rfl
  · simp [serializeMsg_salts]

theorem pushAck_startSaltTime (now : ℚ) (s : Session) :
    (pushAck now s).startSaltTime = s.startSaltTime := by
  unfold pushAck; split
  · rfl
  · simp [serializeMsg_startSaltTime]

theorem pushAck_compressionThreshold (now : ℚ) (s : Session) :
    (pushAck now s).compressionThreshold = s.compressionThreshold := by
  unfold pushAck; split
  · rfl
  · simp [serializeMsg_compressionThreshold]

theorem pushAck_sequence (now : ℚ) (s : Session) :
    (pushAck now s).sequence = s.sequence := by
  unfold pushAck; split
  · rfl
  · simp [serializeMsg_sequence]

theorem pushSaltRotation_of_none (now : ℚ) {s : Session} (h : s.startSaltTime = none) :
    pushSaltRotation now s = s := by
  simp [pushSaltRotation, h]

theorem pushSaltRotation_rpcResults (now : ℚ) (s : Session) :
    (pushSaltRotation now s).rpcResults = s.rpcResults := by
  unfold pushSaltRotation
  split
  · rfl
  · dsimp only
    split
    · split
      · split
        · simp [serializeMsg_rpcResults]
        · rfl
      · rfl
    · rfl

theorem pushSaltRotation_updates (now : ℚ) (s : Session) :
    (pushSaltRotation now s).updates = s.updates := by
  unfold pushSaltRotation
  split
  · rfl
  · dsimp only
    split
    · split
      · split
        · simp [serializeMsg_updates]
        · rfl
      · rfl
    · rfl

theorem pushSaltRotation_clientId (now : ℚ) (s : Session) :
    (pushSaltRotation now s).clientId = s.clientId := by
  unfold pushSaltRotation
  split
  · rfl
  · dsimp only
    split
    · split
      · split
        · simp [serializeMsg_clientId]
        · rfl
      · rfl
    · rfl

theorem pushSaltRotation_compressionThreshold (now : ℚ) (s : Session) :
    (pushSaltRotation now s).compressionThreshold = s.compressionThreshold := by
  unfold pushSaltRotation
  split
  · rfl
  · dsimp only
    split
    · split
      · split
        · simp [serializeMsg_compressionThreshold]
        · rfl
      · rfl
    · rfl

theorem pushSaltRotation_pendingAck (now : ℚ) (s : Session) :
    (pushSaltRotation now s).pendingAck = s.pendingAck := by
  unfold pushSaltRotation
  split
  · rfl
  · dsimp only
    split
    · split
      · split
        · simp [serializeMsg_pendingAck]
        · rfl
      · rfl
    · rfl

theorem pushSaltRotation_sequence_parity (now : ℚ) (s : Session) :
    (pushSaltRotation now s).sequence % 2 = s.sequence % 2 := by
  unfold pushSaltRotation
  split
  · rfl
  · dsimp only
    split
    · split
      · split
        · simp [serializeMsg_sequence]
        · rfl
      · rfl
    · rfl

theorem pushSaltRotation_sequence_le (now : ℚ) (s : Session) :
    s.sequence ≤ (pushSaltRotation now s).sequence := by
  unfold pushSaltRotation
  split
  · exact le_rfl
  · dsimp only
    split
    · split
      · split
        · simp [serializeMsg_sequence]
        · exact le_rfl
      · exact le_rfl
    · exact le_rfl

theorem push_rpcResults (gz : Bytes → Bytes) (now : ℚ) (req : Bytes) (s : Session) :
    (push gz now req s).2.rpcResults = s.rpcResults := by
  unfold push
  dsimp only
  split
  · simp [pushSaltRotation_rpcResults, pushAck_rpcResults]
  · split
    · simp [pushSaltRotation_rpcResults, pushAck_rpcResults]
    · simp [serializeMsg_rpcResults, pushSaltRotation_rpcResults, pushAck_rpcResults]

theorem push_updates (gz : Bytes → Bytes) (now : ℚ) (req : Bytes) (s : Session) :
    (push gz now req s).2.updates = s.updates := by
  unfold push
  dsimp only
  split
  · simp [pushSaltRotation_updates, pushAck_updates]
  · split
    · simp [pushSaltRotation_updates, pushAck_updates]
    · simp [serializeMsg_updates, pushSaltRotation_updates, pushAck_updates]

theorem push_clientId (gz : Bytes → Bytes) (now : ℚ) (req : Bytes) (s : Session) :
    (push gz now req s).2.clientId = s.clientId := by
  unfold push
  dsimp only
  split
  · simp [pushSaltRotation_clientId, pushAck_clientId]
  · split
    · simp [pushSaltRotation_clientId, pushAck_clientId]
    · simp [serializeMsg_clientId, pushSaltRotation_clientId, pushAck_clientId]

theorem push_sequence_parity (gz : Bytes → Bytes) (now : ℚ) (req : Bytes) (s : Session) :
    (push gz now req s).2.sequence % 2 = s.sequence % 2 := by
  unfold push
  dsimp only
  have hA : (pushAck now { s with buffer := reserveBuffer s.buffer }).sequence
      = s.sequence := pushAck_sequence _ _
  have hR := pushSaltRotation_sequence_parity now
    (pushAck now { s with buffer := reserveBuffer s.buffer })
  split
  · dsimp only
    omega
  · split
    · dsimp only
      omega
    · dsimp only
      simp only [serializeMsg_sequence, if_true]
      all_goals omega

theorem Extends.rfl (s : Session) : Extends s s :=
  ⟨⟨[], by simp⟩, ⟨[], by simp⟩, Eq.refl _⟩

theorem Extends.trans {s t u : Session} (h1 : Extends s t) (h2 : Extends t u) :
    Extends s u := by
  obtain ⟨⟨l1, e1⟩, ⟨l2, e2⟩, p1⟩ := h1
  obtain ⟨⟨l3, e3⟩, ⟨l4, e4⟩, p2⟩ := h2
  exact ⟨⟨l1 ++ l3, by simp [e3, e1]⟩, ⟨l2 ++ l4, by simp [e4, e2]⟩, p2.trans p1⟩

/-- A state whose three tracked fields agree with `s` extends whatever
`s` extends; used for the record updates that touch other fields. -/
theorem Extends.of_fields {s t : Session} (hr : t.rpcResults = s.rpcResults)
    (hu : t.updates = s.updates) (hq : t.sequence = s.sequence) : Extends s t :=
  ⟨⟨[], by simp [hr]⟩, ⟨[], by simp [hu]⟩, by rw [hq]⟩

theorem push_extends (gz : Bytes → Bytes) (now : ℚ) (req : Bytes) (s : Session) :
    Extends s (push gz now req s).2 :=
  ⟨⟨[], by simp [push_rpcResults]⟩, ⟨[], by simp [push_updates]⟩,
    push_sequence_parity gz now req s⟩

theorem handleRpcResult_ne_wrongSession (m : Message) (s : Session) :
    handleRpcResult m s ≠ .error .wrongSession := by
  simp [handleRpcResult]

theorem handleRpcResult_ok {m : Message} {s t : Session}
    (h : handleRpcResult m s = .ok t) : Extends s t := by
  simp [handleRpcResult] at h

theorem handleAck_ne_wrongSession (m : Message) (s : Session) :
    handleAck m s ≠ .error .wrongSession := by
  unfold handleAck
  split <;> simp

theorem handleAck_ok {m : Message} {s t : Session} (h : handleAck m s = .ok t) :
    Extends s t := by
  unfold handleAck at h
  split at h
  · cases h; exact .rfl s
  · cases h

theorem handleBadNotification_ne_wrongSession (gz : Bytes → Bytes) (now : ℚ)
    (m : Message) (s : Session) :
    handleBadNotification gz now m s ≠ .error .wrongSession := by
  unfold handleBadNotification
  dsimp only
  split_ifs <;> simp

theorem handleBadNotification_ok {gz : Bytes → Bytes} {now : ℚ} {m : Message}
    {s t : Session} (h : handleBadNotification gz now m s = .ok t) : Extends s t := by
  unfold handleBadNotification at h
  dsimp only at h
  split_ifs at h
  all_goals first
    | exact Except.noConfusion h
    | (obtain rfl := Except.ok.inj h
       first
        | exact Extends.trans
            ⟨⟨_, Eq.refl _⟩, ⟨[], by simp⟩, by dsimp only⟩
            (push_extends _ _ _ _)
        | exact ⟨⟨_, Eq.refl _⟩, ⟨[], by simp [correctTimeOffset]⟩,
            by dsimp only [correctTimeOffset]; all_goals omega⟩)

theorem handleStateReq_ne_wrongSession (m : Message) (s : Session) :
    handleStateReq m s ≠ .error .wrongSession := by
  unfold handleStateReq
  split <;> simp

theorem handleStateReq_ok {m : Message} {s t : Session}
    (h : handleStateReq m s = .ok t) : Extends s t := by
  unfold handleStateReq at h
  split at h
  · cases h; exact .rfl s
  · cases h

theorem handleStateInfo_ne_wrongSession (m : Message) (s : Session) :
    handleStateInfo m s ≠ .error .wrongSession := by
  unfold handleStateInfo
  split <;> simp

theorem handleStateInfo_ok {m : Message} {s t : Session}
    (h : handleStateInfo m s = .ok t) : Extends s t := by
  unfold handleStateInfo at h
  split at h
  · cases h; exact .rfl s
  · cases h

theorem handleMsgAll_ne_wrongSession (m : Message) (s : Session) :
    handleMsgAll m s ≠ .error .wrongSession := by
  unfold handleMsgAll
  split <;> simp

theorem handleMsgAll_ok {m : Message} {s t : Session}
    (h : handleMsgAll m s = .ok t) : Extends s t := by
  unfold handleMsgAll at h
  split at h
  · cases h; exact .rfl s
  · cases h

theorem handleDetailedInfo_ne_wrongSession (m : Message) (s : Session) :
    handleDetailedInfo m s ≠ .error .wrongSession := by
  unfold handleDetailedInfo
  split_ifs <;> simp

theorem handleDetailedInfo_ok {m : Message} {s t : Session}
    (h : handleDetailedInfo m s = .ok t) : Extends s t := by
  unfold handleDetailedInfo at h
  split_ifs at h <;> cases h <;> exact Extends.of_fields (by simp) (by simp) (by simp)

theorem handleMsgResend_ne_wrongSession (m : Message) (s : Session) :
    handleMsgResend m s ≠ .error .wrongSession := by
  unfold handleMsgResend
  split <;> simp

theorem handleMsgResend_ok {m : Message} {s t : Session}
    (h : handleMsgResend m s = .ok t) : Extends s t := by
  unfold handleMsgResend at h
  split at h
  · cases h; exact .rfl s
  · cases h

theorem handleFutureSalts_ne_wrongSession (now : ℚ) (m : Message) (s : Session) :
    handleFutureSalts now m s ≠ .error .wrongSession := by
  unfold handleFutureSalts
  split
  · simp
  · split <;> simp

theorem handleFutureSalts_ok {now : ℚ} {m : Message} {s t : Session}
    (h : handleFutureSalts now m s = .ok t) : Extends s t := by
  unfold handleFutureSalts at h
  split at h
  · cases h
  · split at h
    · cases h
    · cases h
      exact ⟨⟨_, Eq.refl _⟩, ⟨[], by simp⟩, by dsimp only⟩

theorem handleFutureSalt_ne_wrongSession (m : Message) (s : Session) :
    handleFutureSalt m s ≠ .error .wrongSession := by
  unfold handleFutureSalt
  split <;> simp

theorem handleFutureSalt_ok {m : Message} {s t : Session}
    (h : handleFutureSalt m s = .ok t) : Extends s t := by
  unfold handleFutureSalt at h
  split at h <;> cases h

theorem handlePong_ne_wrongSession (m : Message) (s : Session) :
    handlePong m s ≠ .error .wrongSession := by
  unfold handlePong
  split <;> simp

theorem handlePong_ok {m : Message} {s t : Session}
    (h : handlePong m s = .ok t) : Extends s t := by
  unfold handlePong at h
  split at h
  · cases h
  · cases h
    exact ⟨⟨_, Eq.refl _⟩, ⟨[], by simp⟩, by dsimp only⟩

theorem handleDestroySession_ne_wrongSession (m : Message) (s : Session) :
    handleDestroySession m s ≠ .error .wrongSession := by
  unfold handleDestroySession
  split <;> simp

theorem handleDestroySession_ok {m : Message} {s t : Session}
    (h : handleDestroySession m s = .ok t) : Extends s t := by
  unfold handleDestroySession at h
  split at h
  · cases h
  · cases h; exact .rfl s

theorem handleNewSessionCreated_ne_wrongSession (m : Message) (s : Session) :
    handleNewSessionCreated m s ≠ .error .wrongSession := by
  unfold handleNewSessionCreated
  split <;> simp

theorem handleNewSessionCreated_ok {m : Message} {s t : Session}
    (h : handleNewSessionCreated m s = .ok t) : Extends s t := by
  unfold handleNewSessionCreated at h
  split at h
  · cases h
  · cases h; exact Extends.of_fields (by simp) (by simp) (by simp)

theorem handleHttpWait_ne_wrongSession (m : Message) (s : Session) :
    handleHttpWait m s ≠ .error .wrongSession := by
  unfold handleHttpWait
  split <;> simp

theorem handleHttpWait_ok {m : Message} {s t : Session}
    (h : handleHttpWait m s = .ok t) : Extends s t := by
  unfold handleHttpWait at h
  split at h
  · cases h
  · cases h; exact .rfl s

theorem ackStep_extends (m : Message) (s : Session) : Extends s (ackStep m s) := by
  unfold ackStep
  split
  · exact Extends.of_fields (by simp) (by simp) (by simp)
  · exact .rfl s

/-- Exhaustive case analysis of `dispatchCore`: any property that holds
of every handler result holds of the dispatch result. -/
theorem dispatchCore_cases {gz : Bytes → Bytes} {gzd : Bytes → Option Bytes}
    {now : ℚ} {recurse : Message → Session → Except Err Session}
    {m : Message} {s : Session} (P : Except Err Session → Prop)
    (hparse : P (.error .parseError))
    (hrpc : P (handleRpcResult m s))
    (hack : P (handleAck m s))
    (hbad : P (handleBadNotification gz now m s))
    (hsreq : P (handleStateReq m s))
    (hsinfo : P (handleStateInfo m s))
    (hall : P (handleMsgAll m s))
    (hdet : P (handleDetailedInfo m s))
    (hres : P (handleMsgResend m s))
    (hfsalt : P (handleFutureSalt m s))
    (hfsalts : P (handleFutureSalts now m s))
    (hpong : P (handlePong m s))
    (hdestroy : P (handleDestroySession m s))
    (hnew : P (handleNewSessionCreated m s))
    (hwait : P (handleHttpWait m s))
    (hgzip : ∀ inner : Bytes, P (recurse ⟨m.msgId, m.seqno, (inner.length : Int), inner⟩ s))
    (hupd : P (.ok { s with updates := s.updates ++ [m.body] })) :
    P (dispatchCore gz gzd now recurse m s) := by
  unfold dispatchCore
  dsimp only
  by_cases h0 : m.body.length < 4
  · rw [if_pos h0]; exact hparse
  rw [if_neg h0]
  by_cases h1 : readU32 m.body 0 = RPC_RESULT_ID
  · rw [if_pos h1]; exact hrpc
  rw [if_neg h1]
  by_cases h2 : readU32 m.body 0 = MSGS_ACK_ID
  · rw [if_pos h2]; exact hack
  rw [if_neg h2]
  by_cases h3 : readU32 m.body 0 = BAD_MSG_NOTIFICATION_ID
  · rw [if_pos h3]; exact hbad
  rw [if_neg h3]
  by_cases h4 : readU32 m.body 0 = BAD_SERVER_SALT_ID
  · rw [if_pos h4]; exact hbad
  rw [if_neg h4]
  by_cases h5 : readU32 m.body 0 = MSGS_STATE_REQ_ID
  · rw [if_pos h5]; exact hsreq
  rw [if_neg h5]
  by_cases h6 : readU32 m.body 0 = MSGS_STATE_INFO_ID
  · rw [if_pos h6]; exact hsinfo
  rw [if_neg h6]
  by_cases h7 : readU32 m.body 0 = MSGS_ALL_INFO_ID
  · rw [if_pos h7]; exact hall
  rw [if_neg h7]
  by_cases h8 : readU32 m.body 0 = MSG_DETAILED_INFO_ID
  · rw [if_pos h8]; exact hdet
  rw [if_neg h8]
  by_cases h9 : readU32 m.body 0 = MSG_NEW_DETAILED_INFO_ID
  · rw [if_pos h9]; exact hdet
  rw [if_neg h9]
  by_cases h10 : readU32 m.body 0 = MSG_RESEND_REQ_ID
  · rw [if_pos h10]; exact hres
  rw [if_neg h10]
  by_cases h11 : readU32 m.body 0 = FUTURE_SALT_ID
  · rw [if_pos h11]; exact hfsalt
  rw [if_neg h11]
  by_cases h12 : readU32 m.body 0 = FUTURE_SALTS_ID
  · rw [if_pos h12]; exact hfsalts
  rw [if_neg h12]
  by_cases h13 : readU32 m.body 0 = PONG_ID
  · rw [if_pos h13]; exact hpong
  rw [if_neg h13]
  by_cases h14 : readU32 m.body 0 = DESTROY_SESSION_OK_ID
  · rw [if_pos h14]; exact hdestroy
  rw [if_neg h14]
  by_cases h15 : readU32 m.body 0 = DESTROY_SESSION_NONE_ID
  · rw [if_pos h15]; exact hdestroy
  rw [if_neg h15]
  by_cases h16 : readU32 m.body 0 = NEW_SESSION_CREATED_ID
  · rw [if_pos h16]; exact hnew
  rw [if_neg h16]
  by_cases h17 : readU32 m.body 0 = GZIP_PACKED_ID
  · rw [if_pos h17]
    cases hp : parseGzipPacked m.body with
    | none => exact hparse
    | some packed =>
      dsimp only
      cases hgd : gzd packed with
      | none => exact hparse
      | some inner =>
        dsimp only
        exact hgzip inner
  rw [if_neg h17]
  by_cases h18 : readU32 m.body 0 = HTTP_WAIT_ID
  · rw [if_pos h18]; exact hwait
  rw [if_neg h18]
  exact hupd

theorem dispatchCore_ne_wrongSession {gz : Bytes → Bytes} {gzd : Bytes → Option Bytes}
    {now : ℚ} {recurse : Message → Session → Except Err Session}
    (hrec : ∀ m s, recurse m s ≠ .error .wrongSession) (m : Message) (s : Session) :
    dispatchCore gz gzd now recurse m s ≠ .error .wrongSession := by
  refine dispatchCore_cases (· ≠ .error .wrongSession) ?_ ?_ ?_ ?_ ?_ ?_ ?_ ?_ ?_ ?_
    ?_ ?_ ?_ ?_ ?_ ?_ ?_
  · exact fun h => Err.noConfusion (Except.error.inj h)
  · exact handleRpcResult_ne_wrongSession _ _
  · exact handleAck_ne_wrongSession _ _
  · exact handleBadNotification_ne_wrongSession _ _ _ _
  · exact handleStateReq_ne_wrongSession _ _
  · exact handleStateInfo_ne_wrongSession _ _
  · exact handleMsgAll_ne_wrongSession _ _
  · exact handleDetailedInfo_ne_wrongSession _ _
  · exact handleMsgResend_ne_wrongSession _ _
  · exact handleFutureSalt_ne_wrongSession _ _
  · exact handleFutureSalts_ne_wrongSession _ _ _
  · exact handlePong_ne_wrongSession _ _
  · exact handleDestroySession_ne_wrongSession _ _
  · exact handleNewSessionCreated_ne_wrongSession _ _
  · exact handleHttpWait_ne_wrongSession _ _
  · exact fun inner => hrec _ _
  · exact fun h => Except.noConfusion h

theorem dispatchCore_ok_extends {gz : Bytes → Bytes} {gzd : Bytes → Option Bytes}
    {now : ℚ} {recurse : Message → Session → Except Err Session}
    (hrec : ∀ m s t, recurse m s = .ok t → Extends s t)
    {m : Message} {s t : Session}
    (h : dispatchCore gz gzd now recurse m s = .ok t) : Extends s t := by
  refine dispatchCore_cases (fun r => r = .ok t → Extends s t) ?_ ?_ ?_ ?_ ?_ ?_ ?_
    ?_ ?_ ?_ ?_ ?_ ?_ ?_ ?_ ?_ ?_ h
  · exact fun h => Except.noConfusion h
  · exact fun h => handleRpcResult_ok h
  · exact fun h => handleAck_ok h
  · exact fun h => handleBadNotification_ok h
  · exact fun h => handleStateReq_ok h
  · exact fun h => handleStateInfo_ok h
  · exact fun h => handleMsgAll_ok h
  · exact fun h => handleDetailedInfo_ok h
  · exact fun h => handleMsgResend_ok h
  · exact fun h => handleFutureSalt_ok h
  · exact fun h => handleFutureSalts_ok h
  · exact fun h => handlePong_ok h
  · exact fun h => handleDestroySession_ok h
  · exact fun h => handleNewSessionCreated_ok h
  · exact fun h => handleHttpWait_ok h
  · exact fun inner h => hrec _ _ _ h
  · exact fun h => by
      obtain rfl := Except.ok.inj h
      exact ⟨⟨[], by simp⟩, ⟨[m.body], by simp⟩, by simp⟩

theorem dispatch_ne_wrongSession {gz : Bytes → Bytes} {gzd : Bytes → Option Bytes}
    {now : ℚ} {recurse : Message → Session → Except Err Session}
    (hrec : ∀ m s, recurse m s ≠ .error .wrongSession) (m : Message) (s : Session) :
    dispatch gz gzd now recurse m s ≠ .error .wrongSession :=
  dispatchCore_ne_wrongSession hrec m (ackStep m s)

theorem dispatch_ok_extends {gz : Bytes → Bytes} {gzd : Bytes → Option Bytes}
    {now : ℚ} {recurse : Message → Session → Except Err Session}
    (hrec : ∀ m s t, recurse m s = .ok t → Extends s t)
    {m : Message} {s t : Session}
    (h : dispatch gz gzd now recurse m s = .ok t) : Extends s t :=
  (ackStep_extends m s).trans (dispatchCore_ok_extends hrec h)

theorem processMessage_ne_wrongSession (gz : Bytes → Bytes) (gzd : Bytes → Option Bytes)
    (now : ℚ) : ∀ (fuel : Nat) (m : Message) (s : Session),
    processMessage gz gzd now fuel m s ≠ .error .wrongSession := by
  intro fuel
  induction fuel with
  | zero => intro m s; simp [processMessage]
  | succ n ih => intro m s; exact dispatch_ne_wrongSession ih m s

theorem processMessage_ok_extends (gz : Bytes → Bytes) (gzd : Bytes → Option Bytes)
    (now : ℚ) : ∀ (fuel : Nat) (m : Message) (s t : Session),
    processMessage gz gzd now fuel m s = .ok t → Extends s t := by
  intro fuel
  induction fuel with
  | zero => intro m s t h; simp [processMessage] at h
  | succ n ih => intro m s t h; exact dispatch_ok_extends (fun m s t => ih m s t) h

/-! ### Frame lemmas for `finalizePlain` and `deserializePlain` -/

theorem finalizePlain_sequence (now : ℚ) (s : Session) :
    (finalizePlain now s).2.sequence = s.sequence := by
  unfold finalizePlain
  dsimp only
  split
  · rfl
  · split <;> rfl

theorem finalizePlain_rpcResults (now : ℚ) (s : Session) :
    (finalizePlain now s).2.rpcResults = s.rpcResults := by
  unfold finalizePlain
  dsimp only
  split
  · rfl
  · split <;> rfl

theorem finalizePlain_updates (now : ℚ) (s : Session) :
    (finalizePlain now s).2.updates = s.updates := by
  unfold finalizePlain
  dsimp only
  split
  · rfl
  · split <;> rfl

theorem finalizePlain_pendingAck (now : ℚ) (s : Session) :
    (finalizePlain now s).2.pendingAck = s.pendingAck := by
  unfold finalizePlain
  dsimp only
  split
  · rfl
  · split <;> rfl

theorem finalizePlain_startSaltTime (now : ℚ) (s : Session) :
    (finalizePlain now s).2.startSaltTime = s.startSaltTime := by
  unfold finalizePlain
  dsimp only
  split
  · rfl
  · split <;> rfl

theorem finalizePlain_clientId (now : ℚ) (s : Session) :
    (finalizePlain now s).2.clientId = s.clientId := by
  unfold finalizePlain
  dsimp only
  split
  · rfl
  · split <;> rfl

/-- Successful `deserialize` decomposed: the plaintext framed a message,
dispatch succeeded, the snapshot holds the dispatch-final queues, and
the stored queues are drained. -/
theorem deserializePlain_ok {gz : Bytes → Bytes} {gzd : Bytes → Option Bytes}
    {now : ℚ} {fuel : Nat} {pt : Bytes} {s s' : Session} {d : Deserialization}
    (h : deserializePlain gz gzd now fuel pt s = .ok (s', d)) :
    ∃ m s1, parseMessage (pt.drop 16) = some m ∧
      processMessage gz gzd now fuel m s = .ok s1 ∧
      s' = { s1 with rpcResults := [], updates := [] } ∧
      d = ⟨s1.rpcResults, s1.updates⟩ := by
  unfold deserializePlain at h
  by_cases h1 : pt.length < 16
  · rw [if_pos h1] at h; exact Except.noConfusion h
  rw [if_neg h1] at h
  by_cases h2 : readI64 pt 8 ≠ s.clientId
  · rw [if_pos h2] at h; exact Except.noConfusion h
  rw [if_neg h2] at h
  rcases hp : parseMessage (pt.drop 16) with _ | m
  · rw [hp] at h; exact Except.noConfusion h
  rw [hp] at h
  dsimp only at h
  rcases hq : processMessage gz gzd now fuel m s with e | s1
  · rw [hq] at h; exact Except.noConfusion h
  rw [hq] at h
  dsimp only at h
  injection h with h3
  injection h3 with h4 h5
  exact ⟨m, s1, rfl, hq, h4.symm, h5.symm⟩

/-! ### Claim theorems: inbound path -/

/-- **C8.** Wrong-session rejection: for a decrypted plaintext long
enough for the 16-byte header read, `deserialize` raises the
wrong-session error exactly when the `client_id` in bytes 8..16 differs
from the session's; `deserialize` fails exactly when processing fails
(its result is `.error` exactly in those cases), and when the ids match
dispatch proceeds and whatever it raises is never the wrong-session
error. -/
theorem deserialize_wrongSession_iff (gz : Bytes → Bytes) (gzd : Bytes → Option Bytes)
    (now : ℚ) (fuel : Nat) (pt : Bytes) (s : Session) (hlen : 16 ≤ pt.length) :
    (deserializePlain gz gzd now fuel pt s = .error .wrongSession ↔
      readI64 pt 8 ≠ s.clientId) := by
  unfold deserializePlain
  rw [if_neg (by omega : ¬ pt.length < 16)]
  by_cases hc : readI64 pt 8 ≠ s.clientId
  · rw [if_pos hc]
    simpa using hc
  · rw [if_neg hc]
    constructor
    · intro hw
      exfalso
      revert hw
      rcases hp : parseMessage (pt.drop 16) with _ | m
      · intro hw; exact Err.noConfusion (Except.error.inj hw)
      · dsimp only
        rcases hq : processMessage gz gzd now fuel m s with e | s1
        · intro hw
          obtain rfl := Except.error.inj hw
          exact processMessage_ne_wrongSession gz gzd now fuel m s hq
        · intro hw; exact Except.noConfusion hw
    · intro hne; exact absurd hne hc

/-- **C6.** Drain semantics: a successful `deserialize` leaves both
queues empty and returns exactly the accumulated entries (the stored
queues extended, in dispatch order, by what this dispatch appended); in
particular a second successful call starts from empty queues and can
only return entries appended by its own dispatch. -/
theorem deserialize_drains (gz : Bytes → Bytes) (gzd : Bytes → Option Bytes)
    (now : ℚ) (fuel : Nat) (pt : Bytes) (s s' : Session) (d : Deserialization)
    (h : deserializePlain gz gzd now fuel pt s = .ok (s', d)) :
    s'.rpcResults = [] ∧ s'.updates = [] ∧
    (∃ l, d.rpcResults = s.rpcResults ++ l) ∧
    (∃ l, d.updates = s.updates ++ l) := by
  obtain ⟨m, s1, _, hq, rfl, rfl⟩ := deserializePlain_ok h
  obtain ⟨⟨l1, e1⟩, ⟨l2, e2⟩, -⟩ := processMessage_ok_extends gz gzd now fuel m s s1 hq
  exact ⟨rfl, rfl, ⟨l1, e1⟩, ⟨l2, e2⟩⟩

/-- Witness for the wrong-session theorem: a concrete plaintext whose
client id 8 differs from the session's 7 is rejected as wrong session. -/
theorem deserialize_wrongSession_iff_witness :
    16 ≤ exWrongPlain.length ∧
    (deserializePlain exGzip exGunzip 0 5 exWrongPlain exSession = .error .wrongSession ↔
      readI64 exWrongPlain 8 ≠ exSession.clientId) ∧
    deserializePlain exGzip exGunzip 0 5 exWrongPlain exSession = .error .wrongSession :=
  ⟨by decide,
   deserialize_wrongSession_iff exGzip exGunzip 0 5 exWrongPlain exSession (by decide),
   rfl⟩

/-- Witness for the drain theorem: a concrete successful `deserialize`
leaves both queues empty and returns the accumulated entries. -/
theorem deserialize_drains_witness :
    deserializePlain exGzip exGunzip 0 5 exUpdatePlain exSession =
      .ok (exC3S1, ⟨[], [pack32 0xdeadbeef]⟩) ∧
    (exC3S1.rpcResults = [] ∧ exC3S1.updates = [] ∧
      (∃ l, Deserialization.rpcResults ⟨[], [pack32 0xdeadbeef]⟩ =
        exSession.rpcResults ++ l) ∧
      (∃ l, Deserialization.updates ⟨[], [pack32 0xdeadbeef]⟩ =
        exSession.updates ++ l)) :=
  ⟨rfl, deserialize_drains exGzip exGunzip 0 5 exUpdatePlain exSession exC3S1
    ⟨[], [pack32 0xdeadbeef]⟩ rfl⟩

/-! ### Claim theorems: sequence counter -/

/-- The sequence counter is even in every reachable state: allocations
add 2, a code-32 correction adds 64, a code-33 correction subtracts
16. -/
theorem reachable_sequence_even {s : Session} (h : Reachable s) :
    s.sequence % 2 = 0 := by
  induction h with
  | init clientId timeOffset firstSalt compressionThreshold => rfl
  | push gz now req hs ih =>
    rw [push_sequence_parity]
    exact ih
  | finalize now hs ih =>
    rw [finalizePlain_sequence]
    exact ih
  | deserialize gz gzd now fuel plaintext hs heq ih =>
    obtain ⟨m, s1, -, hq, rfl, rfl⟩ := deserializePlain_ok heq
    have hext := processMessage_ok_extends gz gzd now fuel m _ s1 hq
    dsimp only
    rw [hext.seqParity]
    exact ih

/-- **C2 (amended).** Sequence parity: in every reachable state the
counter is even, so a content-related allocation returns an odd
`seq_no` (counter advances by 2, `counter - 1` is returned) and a
non-content allocation returns the current even counter; allocations
never decrease the counter.  The original claim's "non-decreasing
across every operation" fails: dispatching a `bad_msg_notification`
with error code 33 decreases the counter by exactly 16. -/
theorem seqNo_parity_amended (s : Session) (hs : Reachable s) :
    s.sequence % 2 = 0 ∧
    (getSeqNo true s).1 % 2 = 1 ∧
    (getSeqNo false s).1 % 2 = 0 ∧
    (∀ b : Bool, s.sequence ≤ (getSeqNo b s).2.sequence) ∧
    (∀ (gz : Bytes → Bytes) (now : ℚ) (m : Message) (t t' : Session),
      readU32 m.body 0 = BAD_MSG_NOTIFICATION_ID → ¬ m.body.length < 20 →
      readI32 m.body 16 = 33 → handleBadNotification gz now m t = .ok t' →
      t'.sequence = t.sequence - 16) := by
  have heven := reachable_sequence_even hs
  refine ⟨heven, ?_, ?_, ?_, ?_⟩
  · simp only [getSeqNo, if_true]
    omega
  · simpa only [getSeqNo, if_false] using heven
  · intro b
    cases b <;> simp [getSeqNo]
  · intro gz now m t t' hc hlen h33 hok
    unfold handleBadNotification at hok
    have hns : readU32 m.body 0 ≠ BAD_SERVER_SALT_ID := by rw [hc]; decide
    rw [if_neg hns, if_pos hc, if_neg hlen] at hok
    dsimp only at hok
    rw [h33] at hok
    norm_num at hok
    subst hok
    rfl

/-- Witness for the amended parity theorem at the freshly constructed
sample session. -/
theorem seqNo_parity_amended_witness :
    exSession.sequence % 2 = 0 ∧
    (getSeqNo true exSession).1 % 2 = 1 ∧
    (getSeqNo false exSession).1 % 2 = 0 ∧
    (∀ b : Bool, exSession.sequence ≤ (getSeqNo b exSession).2.sequence) ∧
    (∀ (gz : Bytes → Bytes) (now : ℚ) (m : Message) (t t' : Session),
      readU32 m.body 0 = BAD_MSG_NOTIFICATION_ID → ¬ m.body.length < 20 →
      readI32 m.body 16 = 33 → handleBadNotification gz now m t = .ok t' →
      t'.sequence = t.sequence - 16) :=
  seqNo_parity_amended exSession (Reachable.init 7 (some 0) (some 3) none)

/-- **C2 (counterexample).** The internal sequence counter is not
non-decreasing across every operation: dispatching a concrete
`bad_msg_notification` with error code 33 on a fresh session drops the
counter from 0 to -16. -/
theorem seqNo_decrease_counterexample :
    (∃ d, deserializePlain exGzip exGunzip 0 5 exBad33Plain exSession = .ok (exC2S1, d)) ∧
    exC2S1.sequence = -16 ∧ exSession.sequence = 0 ∧ ¬ (0 : Int) ≤ -16 :=
  ⟨⟨⟨[(77, .badMsg 33)], []⟩, rfl⟩, rfl, rfl, by decide⟩

/-! ### Claim theorems: container shape -/

/-- **C3 (counterexample).** After an inbound message left one id
pending acknowledgement, a single successful `push` (the only one since
the previous finalize) is followed by a `finalize` that emits a
msg_container frame whose count field is 2 — the auto-staged `msgs_ack`
plus the pushed request — instead of the single-message frame the claim
predicts, and the count differs from the number of pushes that returned
a `MsgId`. -/
theorem finalize_shape_counterexample :
    exC3Push.1 = some 8 ∧
    (exC3Out.drop 32).take 4 = pack32 MSG_CONTAINER_ID ∧
    (exC3Out.drop 36).take 4 = packI32 2 ∧
    exC3Out.length = 96 ∧ (96 : Nat) ≠ 16 + 16 + 4 :=
  ⟨rfl, rfl, rfl, rfl, by decide⟩

/-- Extracting the constructor and count fields of a container frame:
in `header(16) ++ contHeader(24) ++ rest`, with the container header
laid out `(msg_id 8, seq_no 4, length 4, ctor 4, count 4)`, the ctor
occupies bytes 32..36 and the count bytes 36..40. -/
theorem container_fields (a b c d e f g rest : Bytes)
    (ha : a.length = 8) (hb : b.length = 8) (hc : c.length = 8)
    (hd : d.length = 4) (he : e.length = 4) (hf : f.length = 4) (hg : g.length = 4) :
    ((a ++ b ++ (c ++ d ++ e ++ f ++ g) ++ rest).drop 32).take 4 = f ∧
    ((a ++ b ++ (c ++ d ++ e ++ f ++ g) ++ rest).drop 36).take 4 = g := by
  constructor
  · rw [show a ++ b ++ (c ++ d ++ e ++ f ++ g) ++ rest =
        (a ++ b ++ c ++ d ++ e) ++ (f ++ (g ++ rest)) by simp [List.append_assoc]]
    rw [List.drop_left' (by simp [ha, hb, hc, hd, he]), List.take_left' hf]
  · rw [show a ++ b ++ (c ++ d ++ e ++ f ++ g) ++ rest =
        (a ++ b ++ c ++ d ++ e ++ f) ++ (g ++ rest) by simp [List.append_assoc]]
    rw [List.drop_left' (by simp [ha, hb, hc, hd, he, hf]), List.take_left' hg]

/-- **C3 (amended).** Frame shape in terms of staged messages: when
exactly one message is staged, `finalize` emits the 16-byte header
followed directly by that message (the reserved container header is
stripped); when two or more are staged it emits a container whose
constructor field sits at bytes 32..36 and whose count field at bytes
36..40 equals the staged-message count.  A successful `push` stages
exactly one message when no acknowledgements are pending and no salt
rotation is due; a pending `msgs_ack` or a due `get_future_salts` is
staged in addition, so the count can exceed the number of pushes that
returned a `MsgId`. -/
theorem finalize_shape_amended (now : ℚ) (s : Session) :
    (s.msgCount = 1 →
      (finalizePlain now s).1 =
        packI64 (currentSalt s) ++ packI64 s.clientId ++ s.buffer.drop 40) ∧
    (2 ≤ s.msgCount →
      ((finalizePlain now s).1.drop 32).take 4 = pack32 MSG_CONTAINER_ID ∧
      ((finalizePlain now s).1.drop 36).take 4 = packI32 (s.msgCount : Int)) ∧
    (∀ (gz : Bytes → Bytes) (req : Bytes) (mid : Int),
      s.pendingAck = [] → s.startSaltTime = none →
      (push gz now req s).1 = some mid →
      (push gz now req s).2.msgCount = s.msgCount + 1) := by
  refine ⟨?_, ?_, ?_⟩
  · intro h1
    unfold finalizePlain
    simp only [h1]
    norm_num [List.drop_drop, HEADER_LEN, CONTAINER_HEADER_LEN]
  · intro h2
    have h0 : ¬ s.msgCount = 0 := by omega
    have h1' : ¬ s.msgCount = 1 := by omega
    unfold finalizePlain
    simp only [if_neg h0, if_neg h1']
    exact container_fields _ _ _ _ _ _ _ _ (by simp) (by simp) (by simp) (by simp)
      (by simp) (by simp) (by simp)
  · intro gz req mid hack hsalt hpush
    unfold push at hpush ⊢
    dsimp only at hpush ⊢
    rw [pushAck_of_empty now (by simpa using hack),
      pushSaltRotation_of_none now (by simpa using hsalt)] at hpush ⊢
    by_cases hcap : s.msgCount = CONTAINER_MAX_LENGTH
    · rw [if_pos (by simpa using hcap)] at hpush
      exact Option.noConfusion hpush
    rw [if_neg (by simpa using hcap)] at hpush ⊢
    split at hpush
    · exact Option.noConfusion hpush
    · split
      · exact absurd hpush (by simp_all)
      · simp [serializeMsg_msgCount]

/-! ### Claim theorems: capacity -/

theorem reserveBuffer_length (b : Bytes) :
    (reserveBuffer b).length = if b.isEmpty then 40 else b.length := by
  unfold reserveBuffer
  split
  · simp_all [HEADER_LEN, CONTAINER_HEADER_LEN]
  · simp_all

theorem pfInv_init (clientId : Int) (timeOffset firstSalt : Option Int)
    (compressionThreshold : Option Nat) :
    PFInv (initSession clientId timeOffset firstSalt compressionThreshold) := by
  refine ⟨rfl, rfl, ?_, ?_, Or.inl rfl, fun hn => absurd rfl hn⟩ <;>
    norm_num [initSession, CONTAINER_MAX_LENGTH, CONTAINER_MAX_SIZE, MESSAGE_SIZE_OVERHEAD]

theorem pfInv_push (gz : Bytes → Bytes) (now : ℚ) (req : Bytes) {s : Session}
    (h : PFInv s) : PFInv (push gz now req s).2 := by
  obtain ⟨hack, hsalt, hlen, hsize, hres, hstaged⟩ := h
  have hres40 : 40 ≤ (reserveBuffer s.buffer).length := by
    rw [reserveBuffer_length]
    split
    · exact le_rfl
    · rcases hres with h0 | h40
      · simp_all
      · exact h40
  have hresLt : (reserveBuffer s.buffer).length < CONTAINER_MAX_SIZE := by
    rw [reserveBuffer_length]
    split
    · norm_num [CONTAINER_MAX_SIZE, MESSAGE_SIZE_OVERHEAD]
    · exact hsize
  unfold push
  dsimp only
  rw [pushAck_of_empty now (by simpa using hack),
    pushSaltRotation_of_none now (by simpa using hsalt)]
  split
  · exact ⟨hack, hsalt, hlen, hresLt, Or.inr hres40, fun _ => hres40⟩
  · split
    · exact ⟨hack, hsalt, hlen, hresLt, Or.inr hres40, fun _ => hres40⟩
    · rename_i hc1 hc2
      dsimp only at hc1 hc2
      refine ⟨by simpa [serializeMsg_pendingAck] using hack,
        by simpa [serializeMsg_startSaltTime] using hsalt, ?_, ?_, ?_, ?_⟩
      · rw [serializeMsg_msgCount]
        dsimp only
        omega
      · rw [serializeMsg_buffer_length]
        dsimp only
        omega
      · refine Or.inr ?_
        rw [serializeMsg_buffer_length]
        dsimp only
        omega
      · intro _
        rw [serializeMsg_buffer_length]
        dsimp only
        omega

theorem pfInv_finalize (now : ℚ) {s : Session} (h : PFInv s) :
    PFInv (finalizePlain now s).2 := by
  unfold finalizePlain
  dsimp only
  split
  · exact h
  · have hempty : (0 : Nat) < CONTAINER_MAX_SIZE := by
      norm_num [CONTAINER_MAX_SIZE, MESSAGE_SIZE_OVERHEAD]
    split
    · exact ⟨h.1, h.2.1, by simp [CONTAINER_MAX_LENGTH], by simpa using hempty,
        Or.inl rfl, fun hn => absurd rfl hn⟩
    · exact ⟨h.1, h.2.1, by simp [CONTAINER_MAX_LENGTH], by simpa using hempty,
        Or.inl rfl, fun hn => absurd rfl hn⟩

theorem pfReach_inv {s : Session} (h : PFReach s) : PFInv s := by
  induction h with
  | init clientId timeOffset firstSalt compressionThreshold =>
    exact pfInv_init clientId timeOffset firstSalt compressionThreshold
  | push gz now req hs ih => exact pfInv_push gz now req ih
  | finalize now hs ih => exact pfInv_finalize now ih

theorem finalizePlain_length_le (now : ℚ) {s : Session}
    (h : s.buffer.length < CONTAINER_MAX_SIZE) :
    (finalizePlain now s).1.length ≤ CONTAINER_MAX_SIZE := by
  have hmax : CONTAINER_MAX_SIZE = 1044440 := rfl
  unfold finalizePlain
  dsimp only
  split
  · simp
  · split
    · simp only [List.length_append, List.length_drop, length_packI64,
        HEADER_LEN, CONTAINER_HEADER_LEN]
      omega
    · simp only [List.length_append, List.length_drop, length_packI64,
        length_packI32, length_pack32, HEADER_LEN, CONTAINER_HEADER_LEN]
      omega

/-- **C4.** Capacity bounds: in any state reachable by `push` and
`finalize` calls alone, the plaintext `finalize` produces never exceeds
`CONTAINER_MAX_SIZE`, the staged-message count (the container's count
field) never exceeds `CONTAINER_MAX_LENGTH`, and `push` returns no
capacity both when the staged count equals `CONTAINER_MAX_LENGTH` and
when appending the (possibly compressed) body would make the buffer
reach `CONTAINER_MAX_SIZE`. -/
theorem capacity_bounds (gz : Bytes → Bytes) (now : ℚ) (req : Bytes) {s : Session}
    (h : PFReach s) :
    (finalizePlain now s).1.length ≤ CONTAINER_MAX_SIZE ∧
    s.msgCount ≤ CONTAINER_MAX_LENGTH ∧
    (s.msgCount = CONTAINER_MAX_LENGTH → (push gz now req s).1 = none) ∧
    (CONTAINER_MAX_SIZE ≤ (reserveBuffer s.buffer).length +
        (compressedBody gz s.compressionThreshold req).length + MESSAGE_SIZE_OVERHEAD →
      (push gz now req s).1 = none) := by
  obtain ⟨hack, hsalt, hlen, hsize, hres, hstaged⟩ := pfReach_inv h
  refine ⟨finalizePlain_length_le now hsize, hlen, ?_, ?_⟩
  · intro hcap
    unfold push
    dsimp only
    rw [pushAck_of_empty now (by simpa using hack),
      pushSaltRotation_of_none now (by simpa using hsalt),
      if_pos (by simpa using hcap)]
  · intro hbig
    unfold push
    dsimp only
    rw [pushAck_of_empty now (by simpa using hack),
      pushSaltRotation_of_none now (by simpa using hsalt)]
    split
    · rfl
    · rfl

/-- Witness for the capacity theorem at the freshly constructed sample
session. -/
theorem capacity_bounds_witness :
    PFReach exSession ∧
    ((finalizePlain 0 exSession).1.length ≤ CONTAINER_MAX_SIZE ∧
      exSession.msgCount ≤ CONTAINER_MAX_LENGTH ∧
      (exSession.msgCount = CONTAINER_MAX_LENGTH →
        (push exGzip 0 [1, 2, 3, 4] exSession).1 = none) ∧
      (CONTAINER_MAX_SIZE ≤ (reserveBuffer exSession.buffer).length +
          (compressedBody exGzip exSession.compressionThreshold [1, 2, 3, 4]).length +
          MESSAGE_SIZE_OVERHEAD →
        (push exGzip 0 [1, 2, 3, 4] exSession).1 = none)) :=
  ⟨PFReach.init 7 (some 0) (some 3) none,
   capacity_bounds exGzip 0 [1, 2, 3, 4] (PFReach.init 7 (some 0) (some 3) none)⟩

/-! ### Claim theorems: push returning none is not a no-op -/

theorem pushAck_of_nonempty (now : ℚ) {s : Session} (h : ¬ s.pendingAck.isEmpty) :
    pushAck now s =
      { (serializeMsg now (msgsAckBytes s.pendingAck) false s).2 with
        pendingAck := [] } := by
  simp [pushAck, h]

/-- **C10.** A `push` that returns no capacity is not a no-op: with
acknowledgements pending and the staged count one below the cap, `push`
reserves the header placeholder on a fresh buffer, serializes a
`msgs_ack` into the buffer (growing it by the 16-byte message prefix
plus the ack message), clears `pending_ack`, increments the staged
count — and only then refuses the request. -/
theorem push_none_not_noop (gz : Bytes → Bytes) (now : ℚ) (req : Bytes) {s : Session}
    (hack : s.pendingAck ≠ []) (hsalt : s.startSaltTime = none)
    (hcount : s.msgCount + 1 = CONTAINER_MAX_LENGTH) :
    (push gz now req s).1 = none ∧
    (push gz now req s).2.pendingAck = [] ∧
    (push gz now req s).2.msgCount = s.msgCount + 1 ∧
    (push gz now req s).2.buffer.length =
      (reserveBuffer s.buffer).length + MESSAGE_SIZE_OVERHEAD +
        (msgsAckBytes s.pendingAck).length := by
  unfold push
  dsimp only
  rw [pushAck_of_nonempty now (by simpa using hack)]
  rw [pushSaltRotation_of_none now (by simpa [serializeMsg_startSaltTime] using hsalt)]
  rw [if_pos (by simpa [serializeMsg_msgCount] using hcount)]
  refine ⟨rfl, rfl, ?_, ?_⟩
  · simp [serializeMsg_msgCount]
  · simp [serializeMsg_buffer_length]

/-- Witness for the no-op refutation at a concrete state one below the
length cap with one pending acknowledgement. -/
theorem push_none_not_noop_witness :
    exC10S.pendingAck ≠ [] ∧ exC10S.startSaltTime = none ∧
    exC10S.msgCount + 1 = CONTAINER_MAX_LENGTH ∧
    ((push exGzip 0 [1, 2, 3, 4] exC10S).1 = none ∧
      (push exGzip 0 [1, 2, 3, 4] exC10S).2.pendingAck = [] ∧
      (push exGzip 0 [1, 2, 3, 4] exC10S).2.msgCount = exC10S.msgCount + 1 ∧
      (push exGzip 0 [1, 2, 3, 4] exC10S).2.buffer.length =
        (reserveBuffer exC10S.buffer).length + MESSAGE_SIZE_OVERHEAD +
          (msgsAckBytes exC10S.pendingAck).length) :=
  ⟨by decide, rfl, rfl,
   push_none_not_noop exGzip 0 [1, 2, 3, 4] (by decide) rfl rfl⟩

/-- Witness for the amended container-shape theorem: a session with a
single staged push yields the header-plus-message frame, and the
ack-plus-push session yields a container with count 2. -/
theorem finalize_shape_amended_witness :
    ((push exGzip 0 [1, 2, 3, 4] exSession).2.msgCount = 1 ∧
      (finalizePlain 0 (push exGzip 0 [1, 2, 3, 4] exSession).2).1 =
        packI64 (currentSalt (push exGzip 0 [1, 2, 3, 4] exSession).2) ++
          packI64 (push exGzip 0 [1, 2, 3, 4] exSession).2.clientId ++
          (push exGzip 0 [1, 2, 3, 4] exSession).2.buffer.drop 40) ∧
    (2 ≤ exC3Push.2.msgCount ∧
      (exC3Out.drop 32).take 4 = pack32 MSG_CONTAINER_ID ∧
      (exC3Out.drop 36).take 4 = packI32 (exC3Push.2.msgCount : Int)) :=
  ⟨⟨rfl, (finalize_shape_amended 0 (push exGzip 0 [1, 2, 3, 4] exSession).2).1 rfl⟩,
   ⟨Nat.le.intro (show 2 + 0 = exC3Push.2.msgCount from rfl),
    (finalize_shape_amended 0 exC3Push.2).2.1
      (Nat.le.intro (show 2 + 0 = exC3Push.2.msgCount from rfl))⟩⟩

/-! ### Claim theorems: the rpc_result handler faults -/

/-- **C5 (code bug).** An `rpc_result` whose inner constructor is in
the update set is not appended to `rpc_results` and `updates`:
`_handle_rpc_result` begins with
`assert isinstance(message.body, RpcResult)`, and `message.body` is the
raw inner byte string, so dispatching any `rpc_result` raises
AssertionError and poisons the session instead. -/
theorem rpcResult_updates_assert_fails :
    readU32 exRpcUpdateBody 12 = UPDATES_TOO_LONG_ID ∧
    UPDATES_TOO_LONG_ID ∈ UPDATE_IDS ∧
    processMessage exGzip exGunzip 0 5 exRpcUpdateMsg exSession = .error .assertFailed :=
  ⟨rfl, by decide, rfl⟩

/-- **C9 (code bug).** A gzip-wrapped `rpc_result` does not have the
effect the claim describes (appending the inflated body to the queues
like an unwrapped equivalent): `_handle_rpc_result` raises
AssertionError on its first line before the gzip wrapper is even
examined, so dispatching this message poisons the session and appends
nothing. -/
theorem rpcResult_gzip_assert_fails :
    readU32 exRpcGzipBody 12 = GZIP_PACKED_ID ∧
    processMessage exGzip exGunzip 0 5 exRpcGzipMsg exSession = .error .assertFailed ∧
    processMessage exGzip exGunzip 0 5
      ⟨52, 1, 8, pack32 RPC_RESULT_ID ++ packI64 11 ++ pack32 UPDATES_TOO_LONG_ID⟩
      exSession = .error .assertFailed :=
  ⟨rfl, rfl, rfl⟩

/-! ### Claim theorems: bad_server_salt -/

theorem pushSaltRotation_of_single (now : ℚ) {s : Session}
    (h : s.salts.length < 2) : pushSaltRotation now s = s := by
  unfold pushSaltRotation
  split
  · rfl
  · rw [if_neg (by omega)]

theorem finalizePlain_take8 (now : ℚ) {s : Session} (h : ¬ s.msgCount = 0) :
    (finalizePlain now s).1.take 8 = packI64 (currentSalt s) := by
  unfold finalizePlain
  rw [if_neg h]
  dsimp only
  split
  · rw [List.append_assoc, List.take_left' (by simp)]
  · rw [List.append_assoc, List.append_assoc, List.take_left' (by simp)]

theorem compressedBody_small (gz : Bytes → Bytes) (threshold : Option Nat)
    (req : Bytes) (h : ∀ t, threshold = some t → req.length < t) :
    compressedBody gz threshold req = req := by
  unfold compressedBody
  cases threshold with
  | none => rfl
  | some t =>
    dsimp only
    have ht : ¬ t ≤ req.length := by have := h t rfl; omega
    rw [if_neg ht]

/-- **C7.** Salt replacement on `bad_server_salt`: dispatching it
appends `(bad_msg_id, error)` to `rpc_results`, replaces the salt store
with a single entry holding the supplied new server salt, stages a
`get_future_salts(NUM_FUTURE_SALTS)` request into the outgoing buffer
(via the handler's internal `push`), and the next `finalize` writes the
new salt in the first 8 header bytes.  The hypotheses pin down the
non-exceptional path: a well-formed body, an even inbound `seq_no`, no
pending acknowledgements, room in the container, and a compression
threshold above the tiny request (the constructor default 512
qualifies). -/
theorem badServerSalt_replaces_salt (gz : Bytes → Bytes) (gzd : Bytes → Option Bytes)
    (now : ℚ) (fuel : Nat) (m : Message) (s : Session)
    (hc : readU32 m.body 0 = BAD_SERVER_SALT_ID)
    (hlen : ¬ m.body.length < 28)
    (hseq : ¬ messageRequiresAck m)
    (hack : s.pendingAck = [])
    (hcap : ¬ s.msgCount = CONTAINER_MAX_LENGTH)
    (hsize : s.buffer.length + 64 < CONTAINER_MAX_SIZE)
    (hcomp : ∀ t, s.compressionThreshold = some t → 8 < t) :
    ∃ s1, processMessage gz gzd now (fuel + 1) m s = .ok s1 ∧
      s1.salts = [⟨0, 0x7FFFFFFF, readI64 m.body 20⟩] ∧
      s1.rpcResults =
        s.rpcResults ++ [(readI64 m.body 4, .badMsg (readI32 m.body 16))] ∧
      s1.msgCount = s.msgCount + 1 ∧
      (∃ p, s1.buffer = p ++ getFutureSaltsBytes) ∧
      (∀ now2 : ℚ, (finalizePlain now2 s1).1.take 8 = packI64 (readI64 m.body 20)) := by
  have hstep : processMessage gz gzd now (fuel + 1) m s =
      dispatchCore gz gzd now (processMessage gz gzd now fuel) m (ackStep m s) := rfl
  have hackstep : ackStep m s = s := by
    unfold ackStep
    rw [if_neg (by simpa using hseq)]
  rw [hstep, hackstep]
  unfold dispatchCore
  dsimp only
  rw [if_neg (show ¬ m.body.length < 4 by omega),
    if_neg (show ¬ readU32 m.body 0 = RPC_RESULT_ID by rw [hc]; decide),
    if_neg (show ¬ readU32 m.body 0 = MSGS_ACK_ID by rw [hc]; decide),
    if_neg (show ¬ readU32 m.body 0 = BAD_MSG_NOTIFICATION_ID by rw [hc]; decide),
    if_pos hc]
  unfold handleBadNotification
  rw [if_pos hc, if_neg hlen]
  dsimp only
  have h8 : getFutureSaltsBytes.length = 8 := rfl
  have hov : MESSAGE_SIZE_OVERHEAD = 16 := rfl
  have hmax : CONTAINER_MAX_SIZE = 1044440 := rfl
  have hpush2 : (push gz now getFutureSaltsBytes
      { s with
        rpcResults := s.rpcResults ++
          [(readI64 m.body 4, RpcAnswer.badMsg (readI32 m.body 16))],
        salts := [⟨0, 0x7FFFFFFF, readI64 m.body 20⟩] }).2
      = (serializeMsg now getFutureSaltsBytes true
          { s with
            rpcResults := s.rpcResults ++
              [(readI64 m.body 4, RpcAnswer.badMsg (readI32 m.body 16))],
            salts := [⟨0, 0x7FFFFFFF, readI64 m.body 20⟩],
            buffer := reserveBuffer s.buffer }).2 := by
    unfold push
    dsimp only
    rw [pushAck_of_empty now (by simpa using hack),
      pushSaltRotation_of_single now (by simp),
      if_neg (show ¬ s.msgCount = CONTAINER_MAX_LENGTH from hcap),
      compressedBody_small gz s.compressionThreshold getFutureSaltsBytes
        (fun t ht => by have := hcomp t ht; omega)]
    rw [if_neg (show ¬ CONTAINER_MAX_SIZE ≤
        (reserveBuffer s.buffer).length + getFutureSaltsBytes.length +
          MESSAGE_SIZE_OVERHEAD by
      rw [reserveBuffer_length]
      split
      · omega
      · omega)]
  refine ⟨_, rfl, ?_, ?_, ?_, ?_, ?_⟩
  · rw [hpush2, serializeMsg_salts]
  · rw [hpush2, serializeMsg_rpcResults]
  · rw [hpush2, serializeMsg_msgCount]
  · exact ⟨_, by rw [hpush2]; exact serializeMsg_buffer now getFutureSaltsBytes true _⟩
  · intro now2
    rw [hpush2, finalizePlain_take8 now2
      (by rw [serializeMsg_msgCount]; dsimp only; omega)]
    congr 1

/-- Witness for `badServerSalt_replaces_salt`: a concrete 28-byte
bad_server_salt message processed on a fresh session satisfies every
hypothesis, and the single stored salt afterwards is the new server salt
5555, which also heads the next finalized payload. -/
theorem badServerSalt_replaces_salt_witness :
    readU32 exBadSaltMsg.body 0 = BAD_SERVER_SALT_ID ∧
    exSessionC.pendingAck = [] ∧
    (∃ s1, processMessage exGzip exGunzip 1 (0 + 1) exBadSaltMsg exSessionC = .ok s1 ∧
      s1.salts = [⟨0, 0x7FFFFFFF, readI64 exBadSaltMsg.body 20⟩] ∧
      s1.rpcResults = exSessionC.rpcResults ++
        [(readI64 exBadSaltMsg.body 4, .badMsg (readI32 exBadSaltMsg.body 16))] ∧
      s1.msgCount = exSessionC.msgCount + 1 ∧
      (∃ p, s1.buffer = p ++ getFutureSaltsBytes) ∧
      (∀ now2 : ℚ, (finalizePlain now2 s1).1.take 8 =
        packI64 (readI64 exBadSaltMsg.body 20))) :=
  ⟨by decide, rfl,
   badServerSalt_replaces_salt exGzip exGunzip 1 0 exBadSaltMsg exSessionC
     (by decide) (by decide) (by decide) rfl (by decide) (by decide)
     (fun t ht => by have h := Option.some.inj ht; subst h; decide)⟩

/-- C7, counterexample: the claim quantifies over every session state,
but at the container length cap the handler's internal
push of the get_future_salts(64) request is refused and stages nothing.
Dispatching the bad_server_salt message on `exC7S` still records the
keyed error and replaces the salt store, yet the buffer and the staged
message count are unchanged — in particular the 8-byte
get_future_salts request was not appended — so no request is enqueued,
contradicting the claim's unconditional "enqueues" clause. -/
theorem badServerSalt_push_dropped_counterexample :
    exC7S.msgCount = CONTAINER_MAX_LENGTH ∧
    processMessage exGzip exGunzip 1 5 exBadSaltMsg exC7S = .ok exC7S1 ∧
    exC7S1.salts = [⟨0, 0x7FFFFFFF, readI64 exBadSaltMsg.body 20⟩] ∧
    exC7S1.buffer = exC7S.buffer ∧
    exC7S1.msgCount = exC7S.msgCount ∧
    exC7S1.buffer.length = 40 ∧
    exC7S1.buffer.drop 32 ≠ getFutureSaltsBytes :=
  ⟨rfl, rfl, rfl, rfl, rfl, rfl, by decide⟩

end Mtproto
